import Mathlib

/-!
Verification of the reader-side reliability feedback subsystem of
`src/core/ddsi/src/ddsi_acknack.c` (AckNack / NackFrag generation).

The development shallowly embeds the functions of that file:

* `next_deliv_seq` — reconstruction of the 64-bit next-to-deliver sequence
  number from its published low 32-bit word;
* `add_AckNack_getsource` — choice of reorder buffer, bitmap base and the
  no-tail mode;
* `add_AckNack_makebitmaps` — construction of the sequence-number NACK bitmap
  and the fragment NACK bitmap (the scan loop is `makebitmaps_scan`);
* `get_AckNack_info` — classification of the prospective message
  (ACK / NACK / NACKFRAG_ONLY / SUPPRESSED_ACK / SUPPRESSED_NACK);
* `add_AckNack`, `add_NackFrag` — the wire content of the two submessages
  (entity ids, endianness and byte layout are not modelled; the fields whose
  values the file computes are);
* `make_and_resched_acknack`, `sched_acknack_if_needed` — the committer and
  the predictive scheduler.

External collaborators (reorder buffer, defragmenter, delivery queue, message
pool, security hook, event scheduler) are not part of the file; they are
modelled as an `Oracles` record of uninterpreted answer functions, fixed for
the duration of a call.  Machine integers: `seqno_t` (int64) is modelled as
`Int` (the file asserts the values in range, and no arithmetic here can
overflow 63 bits for realistic sequence numbers), `uint32_t` quantities are
modelled as `Nat` with explicit `% 2^32` where the C arithmetic wraps.
Monotonic times (`ddsrt_mtime_t`) are modelled as `Int`.
-/

namespace DdsiAcknack

/-- Capacity of the sequence-number NACK bitmap (bits). -/
def NN_SEQUENCE_NUMBER_SET_MAX_BITS : Nat := 256

/-- Capacity of the fragment-number NACK bitmap (bits). -/
def NN_FRAGMENT_NUMBER_SET_MAX_BITS : Nat := 256

/-- Largest value of a `uint32_t`. -/
def UINT32_MAX : Nat := 4294967295

/-- Sync state of a proxy-writer--reader match (`enum pwr_rd_match_syncstate`). -/
inductive SyncState where
  | prmss_sync
  | prmss_tlcatchup
  | prmss_out_of_sync
deriving DecidableEq, Repr

/-- Verdict of `nn_defrag_nackmap` for one sample. -/
inductive DefragNackmapResult where
  | unknown_sample
  | all_advertised_fragments_known
  | fragments_missing
deriving DecidableEq, Repr

/-- Result classification of `get_AckNack_info` (`enum add_AckNack_result`). -/
inductive AckNackResult where
  | aanr_ack
  | aanr_suppressed_ack
  | aanr_nack
  | aanr_nackfrag_only
  | aanr_suppressed_nack
deriving DecidableEq, Repr

/-- Output of `nn_reorder_nackmap`: the header of the sequence-number set it
filled in, plus the bitmap contents as a predicate on bit index. -/
structure NackmapOut where
  bitmap_base : Int
  numbits : Nat
  bits : Nat → Bool

/-- Output of `nn_defrag_nackmap` for one sample: the verdict, and (when
fragments are missing) the fragment-number set it filled in. -/
structure DefragOut where
  result : DefragNackmapResult
  map_base : Nat
  map_numbits : Nat
  bits : Nat → Bool

/-- A reorder buffer, as consumed by this file: its next expected sequence
number and its nackmap operation `(base, last_seq, notail) -> set`. -/
structure Reorder where
  next_seq : Int
  nackmap : Int → Int → Bool → NackmapOut

/-- The configuration fields of `struct ddsi_domaingv` read by this file. -/
structure Config where
  late_ack_mode : Bool
  ack_delay : Int
  nack_delay : Int
  auto_resched_nack_delay : Int
  meas_hb_to_ack_latency : Bool

/-- Answers of all external collaborators, fixed for the duration of a call
(and across consecutive calls when stating idempotence properties). -/
structure Oracles where
  pw_reorder : Reorder
  match_reorder : Reorder
  defrag : Int → Nat → DefragOut
  dqueue_full : Bool
  alloc_ok : Bool
  security_drops : Bool

/-- The region described by a previously sent NACK
(`struct last_nack_summary`). -/
structure LastNackSummary where
  seq_base : Int
  seq_end_p1 : Int
  frag_base : Nat
  frag_end_p1 : Nat
deriving DecidableEq, Repr

/-- The fields of `struct proxy_writer` read or written by this file. -/
structure ProxyWriter where
  last_seq : Int
  last_fragnum : Nat
  next_deliv_seq_lowword : Nat
  nackfragcount : Nat
deriving DecidableEq, Repr

/-- The fields of `struct pwr_rd_match` read or written by this file. -/
structure PwrRdMatch where
  in_sync : SyncState
  filtered : Bool
  last_seq : Int
  count : Nat
  last_nack : LastNackSummary
  nack_sent_on_nackdelay : Bool
  heartbeat_since_ack : Bool
  heartbeatfrag_since_ack : Bool
  ack_requested : Bool
  directed_heartbeat : Bool
  t_last_ack : Int
  t_last_nack : Int
  hb_timestamp : Int
deriving DecidableEq, Repr

/-- Header of a sequence-number set (`nn_sequence_number_set_header`). -/
structure SeqNumSetHeader where
  bitmap_base : Int
  numbits : Nat
deriving DecidableEq, Repr

/-- Header of a fragment-number set (`nn_fragment_number_set_header`). -/
structure FragNumSetHeader where
  bitmap_base : Nat
  numbits : Nat
deriving DecidableEq, Repr

/-- The per-decision scratch state (`struct add_AckNack_info`). -/
structure AddAckNackInfo where
  nack_sent_on_nackdelay : Bool
  acknack_set : SeqNumSetHeader
  acknack_bits : Nat → Bool
  nackfrag_seq : Int
  nackfrag_set : FragNumSetHeader
  nackfrag_bits : Nat → Bool

/-- Embedding of `next_deliv_seq` (ddsi_acknack.c:28).  For the nonnegative
sequence numbers the function is called with, the C expression
`(next_seq & ~(seqno_t) UINT32_MAX) | lw` equals
`(next_seq / 2^32) * 2^32 + lw` since `lw < 2^32`. -/
def next_deliv_seq (lowword : Nat) (next_seq : Int) : Int :=
  let nd : Int := (next_seq / 2 ^ 32) * 2 ^ 32 + lowword
  if nd > next_seq then nd - 2 ^ 32 else nd

/-- Embedding of `add_AckNack_getsource` (ddsi_acknack.c:77): pick the reorder
buffer, the bitmap base and the no-tail mode. -/
def add_AckNack_getsource (cfg : Config) (orc : Oracles) (pwr : ProxyWriter)
    (rwn : PwrRdMatch) : Reorder × Int × Bool :=
  if rwn.in_sync = SyncState.prmss_out_of_sync ∨ rwn.filtered then
    (orc.match_reorder, orc.match_reorder.next_seq, false)
  else if cfg.late_ack_mode = false then
    (orc.pw_reorder, orc.pw_reorder.next_seq, false)
  else
    (orc.pw_reorder,
     next_deliv_seq pwr.next_deliv_seq_lowword orc.pw_reorder.next_seq,
     orc.dqueue_full)

/-- The scan loop of `add_AckNack_makebitmaps` (ddsi_acknack.c:139-161).
The C iterates `i` over `0 ≤ i < numbits`; here the remaining indices are the
list argument (the caller passes `List.range numbits`).  `w_last_seq` /
`w_last_fragnum` are `pwr->last_seq` / `pwr->last_fragnum`, `base` / `bits`
the bitmap the reorder buffer produced, `info` the scratch state. -/
def makebitmaps_scan (defrag : Int → Nat → DefragOut) (w_last_seq : Int)
    (w_last_fragnum : Nat) (base : Int) (bits : Nat → Bool)
    (info : AddAckNackInfo) : List Nat → AddAckNackInfo × Bool
  | [] => (info, true)
  | i :: rest =>
    if bits i = false then
      makebitmaps_scan defrag w_last_seq w_last_fragnum base bits info rest
    else
      let seq : Int := base + i
      let fragnum : Nat := if seq = w_last_seq then w_last_fragnum else UINT32_MAX
      let d := defrag seq fragnum
      match d.result with
      | DefragNackmapResult.unknown_sample =>
          makebitmaps_scan defrag w_last_seq w_last_fragnum base bits info rest
      | DefragNackmapResult.all_advertised_fragments_known =>
          ({ info with nackfrag_seq := 0,
                       acknack_set := { info.acknack_set with numbits := i } },
           decide (0 < i))
      | DefragNackmapResult.fragments_missing =>
          ({ info with nackfrag_seq := seq,
                       nackfrag_set := ⟨d.map_base, d.map_numbits⟩,
                       nackfrag_bits := d.bits,
                       acknack_set := { info.acknack_set with numbits := i } },
           true)

/-- The nackmap the reorder buffer returns in `add_AckNack_makebitmaps`
(ddsi_acknack.c:124-128): source selection followed by
`nn_reorder_nackmap (reorder, bitmap_base, last_seq, ..., notail)`. -/
def makebitmaps_nm (cfg : Config) (orc : Oracles) (pwr : ProxyWriter)
    (rwn : PwrRdMatch) : NackmapOut :=
  let src := add_AckNack_getsource cfg orc pwr rwn
  let last_seq := if rwn.filtered then rwn.last_seq else pwr.last_seq
  src.1.nackmap src.2.1 last_seq src.2.2

/-- Embedding of `add_AckNack_makebitmaps` (ddsi_acknack.c:119).  The scratch
fields the C leaves uninitialized (and never reads) are given defaults. -/
def add_AckNack_makebitmaps (cfg : Config) (orc : Oracles) (pwr : ProxyWriter)
    (rwn : PwrRdMatch) : AddAckNackInfo × Bool :=
  let nm := makebitmaps_nm cfg orc pwr rwn
  let info : AddAckNackInfo :=
    { nack_sent_on_nackdelay := false,
      acknack_set := ⟨nm.bitmap_base, nm.numbits⟩,
      acknack_bits := nm.bits,
      nackfrag_seq := 0,
      nackfrag_set := ⟨0, 0⟩,
      nackfrag_bits := fun _ => false }
  if nm.numbits = 0 then (info, false)
  else
    makebitmaps_scan orc.defrag pwr.last_seq pwr.last_fragnum nm.bitmap_base
      nm.bits info (List.range nm.numbits)

/-- A bit index at which the scan loop stops: the bit is set and the
defragmenter verdict for its sequence number is not UNKNOWN_SAMPLE. -/
def scan_hit (defrag : Int → Nat → DefragOut) (w_last_seq : Int)
    (w_last_fragnum : Nat) (base : Int) (bits : Nat → Bool) (i : Nat) : Prop :=
  bits i = true ∧
  (defrag (base + i) (if (base + i : Int) = w_last_seq then w_last_fragnum
      else UINT32_MAX)).result ≠ DefragNackmapResult.unknown_sample

instance scan_hit_decidable (defrag : Int → Nat → DefragOut) (w_last_seq : Int)
    (w_last_fragnum : Nat) (base : Int) (bits : Nat → Bool) :
    DecidablePred (scan_hit defrag w_last_seq w_last_fragnum base bits) := by
  intro i
  unfold scan_hit
  infer_instance

/-- What the scan loop returns when it stops at index `i` (the three verdict
arms of the switch; the UNKNOWN_SAMPLE arm never stops, its entry here is a
placeholder that is ruled out by `scan_hit`). -/
def scan_stop_result (defrag : Int → Nat → DefragOut) (w_last_seq : Int)
    (w_last_fragnum : Nat) (base : Int) (info : AddAckNackInfo) (i : Nat) :
    AddAckNackInfo × Bool :=
  let seq : Int := base + i
  let d := defrag seq (if seq = w_last_seq then w_last_fragnum else UINT32_MAX)
  match d.result with
  | DefragNackmapResult.unknown_sample => (info, true)
  | DefragNackmapResult.all_advertised_fragments_known =>
      ({ info with nackfrag_seq := 0,
                   acknack_set := { info.acknack_set with numbits := i } },
       decide (0 < i))
  | DefragNackmapResult.fragments_missing =>
      ({ info with nackfrag_seq := seq,
                   nackfrag_set := ⟨d.map_base, d.map_numbits⟩,
                   nackfrag_bits := d.bits,
                   acknack_set := { info.acknack_set with numbits := i } },
       true)

/-- The local `seq_base` of `get_AckNack_info` (ddsi_acknack.c:274). -/
def info_seq_base (info : AddAckNackInfo) : Int :=
  info.acknack_set.bitmap_base

/-- The local `seq_end_p1` of `get_AckNack_info` (ddsi_acknack.c:277). -/
def info_seq_end_p1 (info : AddAckNackInfo) : Int :=
  info.acknack_set.bitmap_base + info.acknack_set.numbits

/-- The local `frag_base` of `get_AckNack_info` (ddsi_acknack.c:278). -/
def info_frag_base (info : AddAckNackInfo) : Nat :=
  if 0 < info.nackfrag_seq then info.nackfrag_set.bitmap_base else 0

/-- The local `frag_end_p1` of `get_AckNack_info` (ddsi_acknack.c:279); the
sum `bitmap_base + numbits` is `uint32_t` arithmetic, hence the `% 2^32`. -/
def info_frag_end_p1 (info : AddAckNackInfo) : Nat :=
  if 0 < info.nackfrag_seq then
    (info.nackfrag_set.bitmap_base + info.nackfrag_set.numbits) % 2 ^ 32
  else 0

/-- The nack summary filled in by `get_AckNack_info` when there is NACK
material (ddsi_acknack.c:289-292). -/
def info_nack_summary (info : AddAckNackInfo) : LastNackSummary :=
  { seq_base := info_seq_base info,
    seq_end_p1 := info_seq_end_p1 info,
    frag_base := info_frag_base info,
    frag_end_p1 := info_frag_end_p1 info }

/-- The region-advanced test of `get_AckNack_info` (ddsi_acknack.c:295): the
new NACK region starts past (or exactly at, with the fragment range no
earlier than) the previously NACK'd region. -/
def region_advanced (rwn : PwrRdMatch) (info : AddAckNackInfo) : Prop :=
  info_seq_base info > rwn.last_nack.seq_end_p1 ∨
  (info_seq_base info = rwn.last_nack.seq_end_p1 ∧
   info_frag_base info ≥ rwn.last_nack.frag_end_p1)

instance region_advanced_decidable (rwn : PwrRdMatch) (info : AddAckNackInfo) :
    Decidable (region_advanced rwn info) := by
  unfold region_advanced
  infer_instance

/-- Embedding of `get_AckNack_info` (ddsi_acknack.c:250): build the bitmaps,
classify, apply the pure-ACK gating and the NackFrag-only rule.  Returns
`(result, info, nack_summary)`. -/
def get_AckNack_info (cfg : Config) (orc : Oracles) (pwr : ProxyWriter)
    (rwn : PwrRdMatch) (ackdelay_passed nackdelay_passed : Bool) :
    AckNackResult × AddAckNackInfo × LastNackSummary :=
  let mb := add_AckNack_makebitmaps cfg orc pwr rwn
  let step1 : AckNackResult × AddAckNackInfo × LastNackSummary :=
    if mb.2 = false then
      (AckNackResult.aanr_ack,
       { mb.1 with nack_sent_on_nackdelay := rwn.nack_sent_on_nackdelay },
       { seq_base := info_seq_base mb.1, seq_end_p1 := 0,
         frag_base := 0, frag_end_p1 := 0 })
    else
      let ns := info_nack_summary mb.1
      if region_advanced rwn mb.1 then
        (AckNackResult.aanr_nack,
         { mb.1 with nack_sent_on_nackdelay := false }, ns)
      else if rwn.directed_heartbeat = true ∧
          (rwn.nack_sent_on_nackdelay = false ∨ nackdelay_passed = true) then
        (AckNackResult.aanr_nack,
         { mb.1 with nack_sent_on_nackdelay := false }, ns)
      else if nackdelay_passed = true then
        (AckNackResult.aanr_nack,
         { mb.1 with nack_sent_on_nackdelay := true }, ns)
      else
        (AckNackResult.aanr_suppressed_nack,
         { mb.1 with nack_sent_on_nackdelay := rwn.nack_sent_on_nackdelay,
                     acknack_set := { mb.1.acknack_set with numbits := 0 },
                     nackfrag_seq := 0 }, ns)
  if step1.1 = AckNackResult.aanr_ack ∨
      step1.1 = AckNackResult.aanr_suppressed_nack then
    if ¬ (rwn.heartbeat_since_ack = true ∧ rwn.ack_requested = true) then
      (AckNackResult.aanr_suppressed_ack, step1.2.1, step1.2.2)
    else if ¬ (step1.2.2.seq_base > rwn.last_nack.seq_base ∨
        ackdelay_passed = true) then
      (AckNackResult.aanr_suppressed_ack, step1.2.1, step1.2.2)
    else step1
  else if step1.2.1.acknack_set.numbits = 0 ∧ 0 < step1.2.1.nackfrag_seq ∧
      rwn.ack_requested = false then
    (AckNackResult.aanr_nackfrag_only, step1.2.1, step1.2.2)
  else step1

/-- Modelled from the claim text of C1, to be compared with
`get_AckNack_info`: with NACK material, NACK when the region advanced, else
NACK when a directed heartbeat arrived and no nackdelay-motivated NACK is
pending (or the nack delay passed), else NACK when the nack delay passed,
else SUPPRESSED_NACK; pure-ACK results are demoted to SUPPRESSED_ACK unless
`heartbeat_since_ack` and `ack_requested` hold and the base advanced or the
ack delay passed; a NACK with empty sequence bitmap, a fragment NACK and
`ack_requested` false becomes NACKFRAG_ONLY. -/
def spec_classify_nack_material (rwn : PwrRdMatch) (info : AddAckNackInfo)
    (ackdelay_passed nackdelay_passed : Bool) : AckNackResult :=
  let step1 :=
    if info_seq_base info > rwn.last_nack.seq_end_p1 ∨
        (info_seq_base info = rwn.last_nack.seq_end_p1 ∧
         info_frag_base info ≥ rwn.last_nack.frag_end_p1) then
      AckNackResult.aanr_nack
    else if rwn.directed_heartbeat = true ∧
        (rwn.nack_sent_on_nackdelay = false ∨ nackdelay_passed = true) then
      AckNackResult.aanr_nack
    else if nackdelay_passed = true then
      AckNackResult.aanr_nack
    else
      AckNackResult.aanr_suppressed_nack
  if step1 = AckNackResult.aanr_nack then
    if info.acknack_set.numbits = 0 ∧ 0 < info.nackfrag_seq ∧
        rwn.ack_requested = false then
      AckNackResult.aanr_nackfrag_only
    else
      AckNackResult.aanr_nack
  else
    if rwn.heartbeat_since_ack = true ∧ rwn.ack_requested = true ∧
        (info_seq_base info > rwn.last_nack.seq_base ∨
         ackdelay_passed = true) then
      AckNackResult.aanr_suppressed_nack
    else
      AckNackResult.aanr_suppressed_ack

/-- Well-formedness of a defragmenter answer: a FRAGMENTS_MISSING map is
non-empty and does not wrap around the `uint32_t` fragment-number space. -/
def DefragOut.wf (d : DefragOut) : Prop :=
  d.result = DefragNackmapResult.fragments_missing →
    0 < d.map_numbits ∧ d.map_base + d.map_numbits < 2 ^ 32

/-- Well-formedness of a reorder nackmap answer: the base is a valid sequence
number (the code asserts `seq_base >= 1`) and the bitmap respects the
capacity handed to `nn_reorder_nackmap`. -/
def NackmapOut.wf (nm : NackmapOut) : Prop :=
  1 ≤ nm.bitmap_base ∧ nm.numbits ≤ NN_SEQUENCE_NUMBER_SET_MAX_BITS

/-- Well-formedness of the external collaborators' answers. -/
def Oracles.wf (orc : Oracles) : Prop :=
  (∀ seq fragnum, (orc.defrag seq fragnum).wf) ∧
  (∀ base last notail, (orc.pw_reorder.nackmap base last notail).wf) ∧
  (∀ base last notail, (orc.match_reorder.nackmap base last notail).wf)

/-- The computed content of an AckNack submessage (`add_AckNack`,
ddsi_acknack.c:205): `readerSNState` (base and numbits), the bitmap, and the
trailing `count` field.  Entity ids, flags and byte layout are fixed values
not modelled here. -/
structure AckNackWire where
  readerSNState : SeqNumSetHeader
  bits : Nat → Bool
  count : Nat

/-- The computed content of a NackFrag submessage (`add_NackFrag`,
ddsi_acknack.c:165): `writerSN`, the fragment-number state (whose base is the
1-based on-wire value), the bitmap and the trailing `count`. -/
structure NackFragWire where
  writerSN : Int
  fragmentNumberState : FragNumSetHeader
  bits : Nat → Bool
  count : Nat

/-- Embedding of `add_AckNack` (ddsi_acknack.c:205): serialize
`info->acknack.set`, its bits, and `rwn->count` (the count field is written
before the caller increments `rwn->count`). -/
def add_AckNack (rwn : PwrRdMatch) (info : AddAckNackInfo) : AckNackWire :=
  { readerSNState := info.acknack_set,
    bits := info.acknack_bits,
    count := rwn.count }

/-- Embedding of `add_NackFrag` (ddsi_acknack.c:165): serialize
`info->nackfrag.seq`, the fragment set with the 1-based on-wire base
(`bitmap_base + 1` in `uint32_t` arithmetic), its bits, and
`pwr->nackfragcount` (written before the caller increments it). -/
def add_NackFrag (pwr : ProxyWriter) (info : AddAckNackInfo) : NackFragWire :=
  { writerSN := info.nackfrag_seq,
    fragmentNumberState :=
      ⟨(info.nackfrag_set.bitmap_base + 1) % 2 ^ 32, info.nackfrag_set.numbits⟩,
    bits := info.nackfrag_bits,
    count := pwr.nackfragcount }

/-- The control message being built: at most one AckNack, at most one
NackFrag, and an optional HB-to-ACK latency timestamp. -/
structure Xmsg where
  acknack : Option AckNackWire
  nackfrag : Option NackFragWire
  timestamp : Option Int

/-- Model of `nn_xmsg_size` after the security hook ran on each submessage:
the security layer may drop the encoded submessages, reducing the message to
size 0; otherwise each appended submessage contributes its (positive) size,
counted here as 1. -/
def xmsg_size (orc : Oracles) (msg : Xmsg) : Nat :=
  if orc.security_drops then 0
  else (if msg.acknack.isSome then 1 else 0) +
       (if msg.nackfrag.isSome then 1 else 0)

/-- Result of `make_and_resched_acknack`: the message (none when nothing was
sent), the updated match and proxy-writer state, the argument of the
`resched_xevent_if_earlier` call when one was made, and the classification
(kept for observability). -/
structure MakeAckNackResult where
  msg : Option Xmsg
  rwn : PwrRdMatch
  pwr : ProxyWriter
  resched : Option Int
  aanr : AckNackResult

/-- Embedding of `make_and_resched_acknack` (ddsi_acknack.c:387): classify,
bail out on suppression, commit the step-2 flag clears, allocate, build the
submessages, drop on security failure, then perform the per-outcome state
commit and rescheduling. -/
def make_and_resched_acknack (cfg : Config) (orc : Oracles) (pwr : ProxyWriter)
    (rwn : PwrRdMatch) (tnow : Int) (avoid_suppressed_nack : Bool) :
    MakeAckNackResult :=
  let r := get_AckNack_info cfg orc pwr rwn
    (decide (tnow ≥ rwn.t_last_ack + cfg.ack_delay))
    (decide (tnow ≥ rwn.t_last_nack + cfg.nack_delay))
  let aanr := r.1
  let info := r.2.1
  let nack_summary := r.2.2
  if aanr = AckNackResult.aanr_suppressed_ack then
    ⟨none, rwn, pwr, none, aanr⟩
  else if avoid_suppressed_nack ∧ aanr = AckNackResult.aanr_suppressed_nack then
    ⟨none, rwn, pwr, some (rwn.t_last_nack + cfg.nack_delay), aanr⟩
  else
    let rwn1 := { rwn with directed_heartbeat := false,
                           heartbeat_since_ack := false,
                           heartbeatfrag_since_ack := false,
                           nack_sent_on_nackdelay := info.nack_sent_on_nackdelay }
    if orc.alloc_ok = false then ⟨none, rwn1, pwr, none, aanr⟩
    else
      let ts : Option Int :=
        if cfg.meas_hb_to_ack_latency = true ∧ rwn1.hb_timestamp ≠ 0 then
          some rwn1.hb_timestamp
        else none
      let rwn2 :=
        if cfg.meas_hb_to_ack_latency = true ∧ rwn1.hb_timestamp ≠ 0 then
          { rwn1 with hb_timestamp := 0 }
        else rwn1
      let msg : Xmsg :=
        { acknack := if aanr ≠ AckNackResult.aanr_nackfrag_only then
            some (add_AckNack rwn2 info) else none,
          nackfrag := if 0 < info.nackfrag_seq then
            some (add_NackFrag pwr info) else none,
          timestamp := ts }
      if xmsg_size orc msg = 0 then ⟨none, rwn2, pwr, none, aanr⟩
      else
        let rwn3 := { rwn2 with count := (rwn2.count + 1) % 2 ^ 32 }
        match aanr with
        | AckNackResult.aanr_ack =>
            ⟨some msg,
             { rwn3 with ack_requested := false, t_last_ack := tnow,
                         last_nack :=
                           { rwn3.last_nack with seq_base := nack_summary.seq_base } },
             pwr, none, aanr⟩
        | AckNackResult.aanr_nack | AckNackResult.aanr_nackfrag_only =>
            let pwr1 := if nack_summary.frag_end_p1 ≠ 0 then
              { pwr with nackfragcount := (pwr.nackfragcount + 1) % 2 ^ 32 }
              else pwr
            let rwn4 := if aanr ≠ AckNackResult.aanr_nackfrag_only then
              { rwn3 with ack_requested := false, t_last_ack := tnow }
              else rwn3
            ⟨some msg,
             { rwn4 with last_nack := nack_summary, t_last_nack := tnow },
             pwr1, some (tnow + cfg.auto_resched_nack_delay), aanr⟩
        | AckNackResult.aanr_suppressed_nack =>
            ⟨some msg,
             { rwn3 with ack_requested := false, t_last_ack := tnow,
                         last_nack :=
                           { rwn3.last_nack with seq_base := nack_summary.seq_base } },
             pwr, some (rwn3.t_last_nack + cfg.nack_delay), aanr⟩
        | AckNackResult.aanr_suppressed_ack =>
            ⟨none, rwn3, pwr, none, aanr⟩

/-- Result of `sched_acknack_if_needed`: the (unchanged) state and the
argument of the `resched_xevent_if_earlier` call when one was made. -/
structure SchedResult where
  rwn : PwrRdMatch
  pwr : ProxyWriter
  resched : Option Int

/-- Embedding of `sched_acknack_if_needed` (ddsi_acknack.c:352): run the full
classifier, do nothing on SUPPRESSED_ACK, rearm at the nack-delay expiry on
an avoided SUPPRESSED_NACK, and rearm immediately otherwise. -/
def sched_acknack_if_needed (cfg : Config) (orc : Oracles) (pwr : ProxyWriter)
    (rwn : PwrRdMatch) (tnow : Int) (avoid_suppressed_nack : Bool) :
    SchedResult :=
  let r := get_AckNack_info cfg orc pwr rwn
    (decide (tnow ≥ rwn.t_last_ack + cfg.ack_delay))
    (decide (tnow ≥ rwn.t_last_nack + cfg.nack_delay))
  if r.1 = AckNackResult.aanr_suppressed_ack then
    ⟨rwn, pwr, none⟩
  else if avoid_suppressed_nack ∧ r.1 = AckNackResult.aanr_suppressed_nack then
    ⟨rwn, pwr, some (rwn.t_last_nack + cfg.nack_delay)⟩
  else
    ⟨rwn, pwr, some tnow⟩

/-- A baseline configuration with positive delays used by the concrete
evaluations below. -/
def cfg_base : Config :=
  { late_ack_mode := false, ack_delay := 10, nack_delay := 10,
    auto_resched_nack_delay := 100, meas_hb_to_ack_latency := false }

/-- A reorder buffer reporting nothing missing (next sequence number 1,
empty nackmap). -/
def reorder_empty : Reorder :=
  { next_seq := 1,
    nackmap := fun _ _ _ => ⟨1, 0, fun _ => false⟩ }

/-- A reorder buffer reporting sample 10 missing (one-bit nackmap based at
10). -/
def reorder_seq10 : Reorder :=
  { next_seq := 10,
    nackmap := fun _ _ _ => ⟨10, 1, fun i => decide (i = 0)⟩ }

/-- A defragmenter that knows no sample. -/
def defrag_unknown : Int → Nat → DefragOut :=
  fun _ _ => ⟨DefragNackmapResult.unknown_sample, 0, 0, fun _ => false⟩

/-- A defragmenter missing fragments 3 and 4 of sample 10, knowing no other
sample. -/
def defrag_frag10 : Int → Nat → DefragOut :=
  fun seq _ =>
    if seq = 10 then
      ⟨DefragNackmapResult.fragments_missing, 3, 2, fun i => decide (i < 2)⟩
    else
      ⟨DefragNackmapResult.unknown_sample, 0, 0, fun _ => false⟩

/-- Oracles for the C5 scenario: sample 10 missing, fragments of sample 10
partially known. -/
def orc_c5 : Oracles :=
  { pw_reorder := reorder_seq10, match_reorder := reorder_empty,
    defrag := defrag_frag10, dqueue_full := false,
    alloc_ok := true, security_drops := false }

/-- Proxy writer for the C5 scenario. -/
def pwr_c5 : ProxyWriter :=
  { last_seq := 20, last_fragnum := 50, next_deliv_seq_lowword := 1,
    nackfragcount := 7 }

/-- Reader match for the C5 scenario: previous NACK covered
`[5..10) ∪ [10:0..10:7)`, a directed heartbeat has arrived, no
nackdelay-motivated NACK pending, the writer asked for an ACK. -/
def rwn_c5 : PwrRdMatch :=
  { in_sync := SyncState.prmss_sync, filtered := false, last_seq := 0,
    count := 5, last_nack := ⟨5, 10, 0, 7⟩, nack_sent_on_nackdelay := false,
    heartbeat_since_ack := true, heartbeatfrag_since_ack := false,
    ack_requested := true, directed_heartbeat := true,
    t_last_ack := 0, t_last_nack := 0, hb_timestamp := 0 }

/-- The C5 scenario without the directed heartbeat. -/
def rwn_c5_undirected : PwrRdMatch :=
  { rwn_c5 with directed_heartbeat := false }

/-- The C5 oracles with a security layer that drops everything. -/
def orc_c9 : Oracles :=
  { orc_c5 with security_drops := true }

/-- Oracles for the pure-ACK scenario S2: nothing missing anywhere. -/
def orc_ack : Oracles :=
  { pw_reorder := reorder_empty, match_reorder := reorder_empty,
    defrag := defrag_unknown, dqueue_full := false,
    alloc_ok := true, security_drops := false }

/-- Proxy writer for scenario S2. -/
def pwr_s2 : ProxyWriter :=
  { last_seq := 0, last_fragnum := 0, next_deliv_seq_lowword := 1,
    nackfragcount := 0 }

/-- Reader match for scenario S2: pure ACK owed to the writer
(`heartbeat_since_ack`, `ack_requested`, ack delay expired at `tnow = 100`),
current count 5. -/
def rwn_s2 : PwrRdMatch :=
  { in_sync := SyncState.prmss_sync, filtered := false, last_seq := 0,
    count := 5, last_nack := ⟨1, 0, 0, 0⟩, nack_sent_on_nackdelay := false,
    heartbeat_since_ack := true, heartbeatfrag_since_ack := false,
    ack_requested := true, directed_heartbeat := false,
    t_last_ack := 0, t_last_nack := 0, hb_timestamp := 0 }

/-- A configuration with all delays zero (the failing input for the
double-call property). -/
def cfg_zero : Config :=
  { late_ack_mode := false, ack_delay := 0, nack_delay := 0,
    auto_resched_nack_delay := 0, meas_hb_to_ack_latency := false }

/-- Oracles for the double-call scenario: sample 10 missing with no fragment
information. -/
def orc_c6 : Oracles :=
  { pw_reorder := reorder_seq10, match_reorder := reorder_empty,
    defrag := defrag_unknown, dqueue_full := false,
    alloc_ok := true, security_drops := false }

/-- Proxy writer for the double-call scenario. -/
def pwr_c6 : ProxyWriter :=
  { last_seq := 20, last_fragnum := 0, next_deliv_seq_lowword := 1,
    nackfragcount := 0 }

/-- Reader match for the double-call scenario: nothing NACK'd yet, a
heartbeat pending, the writer asked for an ACK. -/
def rwn_c6 : PwrRdMatch :=
  { in_sync := SyncState.prmss_sync, filtered := false, last_seq := 0,
    count := 0, last_nack := ⟨1, 0, 0, 0⟩, nack_sent_on_nackdelay := false,
    heartbeat_since_ack := true, heartbeatfrag_since_ack := false,
    ack_requested := true, directed_heartbeat := false,
    t_last_ack := 0, t_last_nack := 0, hb_timestamp := 0 }

/-- C2: for every `next_seq ≥ 1` and every true next-to-deliver value `nd`
with `1 ≤ nd ≤ next_seq` and `next_seq - nd < 2^32`, reconstructing from the
published low 32 bits via `nd' = (next_seq & ~0xFFFFFFFF) | low_word`, then
subtracting `2^32` exactly when `nd' > next_seq`, returns the true `nd`, and
the result satisfies the asserted invariant `1 ≤ result ≤ next_seq`. -/
theorem next_deliv_seq_correct (next_seq nd : Int)
    (h1 : 1 ≤ nd) (h2 : nd ≤ next_seq) (hN : next_seq - nd < 2 ^ 32) :
    next_deliv_seq (nd.toNat % 2 ^ 32) next_seq = nd ∧
    1 ≤ next_deliv_seq (nd.toNat % 2 ^ 32) next_seq ∧
    next_deliv_seq (nd.toNat % 2 ^ 32) next_seq ≤ next_seq := by
  simp only [next_deliv_seq]
  split_ifs <;> omega

/-- Witness for C2 at a concrete input where the high word is off by one:
`next_seq = 2^32 + 2`, `nd = 2^32 - 1`, published low word `2^32 - 1`. -/
theorem next_deliv_seq_correct_witness :
    next_deliv_seq (((2 ^ 32 - 1 : Int)).toNat % 2 ^ 32) (2 ^ 32 + 2) = 2 ^ 32 - 1 := by
  exact (next_deliv_seq_correct (2 ^ 32 + 2) (2 ^ 32 - 1) (by norm_num) (by norm_num)
    (by norm_num)).1

/-- If no index in the remaining list stops the scan, the loop runs off the
end and returns the scratch state unchanged together with `true`. -/
theorem makebitmaps_scan_no_hit (defrag : Int → Nat → DefragOut) (ls : Int)
    (lf : Nat) (base : Int) (bits : Nat → Bool) (info : AddAckNackInfo) :
    ∀ l : List Nat, (∀ k ∈ l, ¬ scan_hit defrag ls lf base bits k) →
      makebitmaps_scan defrag ls lf base bits info l = (info, true) := by
  intro l
  induction l with
  | nil => intro _; rfl
  | cons j rest ih =>
    intro hno
    simp only [makebitmaps_scan]
    have hrest : ∀ k ∈ rest, ¬ scan_hit defrag ls lf base bits k :=
      fun k hk => hno k (List.mem_cons_of_mem j hk)
    by_cases hb : bits j = false
    · rw [if_pos hb]
      exact ih hrest
    · rw [if_neg hb]
      have hbt : bits j = true := by cases h : bits j <;> simp_all
      have hnj := hno j (List.mem_cons_self j rest)
      unfold scan_hit at hnj
      simp only [hbt, true_and] at hnj
      have hv := not_ne_iff.mp hnj
      simp only [hv]
      exact ih hrest

/-- If `i` is the first stopping index in the remaining list, the loop
returns the corresponding stop result. -/
theorem makebitmaps_scan_first_hit (defrag : Int → Nat → DefragOut) (ls : Int)
    (lf : Nat) (base : Int) (bits : Nat → Bool) (info : AddAckNackInfo) :
    ∀ (l1 : List Nat) (i : Nat) (l2 : List Nat),
      (∀ k ∈ l1, ¬ scan_hit defrag ls lf base bits k) →
      scan_hit defrag ls lf base bits i →
      makebitmaps_scan defrag ls lf base bits info (l1 ++ i :: l2) =
        scan_stop_result defrag ls lf base info i := by
  intro l1
  induction l1 with
  | nil =>
    intro i l2 _ hhit
    obtain ⟨hb, hv⟩ := hhit
    simp only [List.nil_append, makebitmaps_scan]
    rw [if_neg (by simp [hb])]
    unfold scan_stop_result
    rcases hd : (defrag (base + i) (if (base + i : Int) = ls then lf
        else UINT32_MAX)).result with _ | _ | _
    · exact absurd hd hv
    · simp only [hd]
    · simp only [hd]
  | cons j rest ih =>
    intro i l2 hno hhit
    simp only [List.cons_append, makebitmaps_scan]
    have hrest : ∀ k ∈ rest, ¬ scan_hit defrag ls lf base bits k :=
      fun k hk => hno k (List.mem_cons_of_mem j hk)
    by_cases hb : bits j = false
    · rw [if_pos hb]
      exact ih i l2 hrest hhit
    · rw [if_neg hb]
      have hbt : bits j = true := by cases h : bits j <;> simp_all
      have hnj := hno j (List.mem_cons_self j rest)
      unfold scan_hit at hnj
      simp only [hbt, true_and] at hnj
      have hv := not_ne_iff.mp hnj
      simp only [hv]
      exact ih i l2 hrest hhit

/-- Decomposition of the scanned index list around the first stopping
index. -/
theorem range_split_at (n i : Nat) (hi : i < n) :
    List.range n =
      List.range i ++ i :: ((List.range (n - (i + 1))).map fun j => i + 1 + j) := by
  conv_lhs => rw [show n = (i + 1) + (n - (i + 1)) by omega]
  rw [List.range_add, List.range_succ, List.append_assoc, List.singleton_append]

/-- The nackmap used by the bitmap builder always comes from one of the two
reorder buffers, so well-formed oracles give a well-formed nackmap. -/
theorem makebitmaps_nm_wf (cfg : Config) (orc : Oracles) (pwr : ProxyWriter)
    (rwn : PwrRdMatch) (hwf : Oracles.wf orc) :
    (makebitmaps_nm cfg orc pwr rwn).wf := by
  have hsrc : (add_AckNack_getsource cfg orc pwr rwn).1 = orc.match_reorder ∨
      (add_AckNack_getsource cfg orc pwr rwn).1 = orc.pw_reorder := by
    unfold add_AckNack_getsource
    split_ifs <;> simp
  simp only [makebitmaps_nm]
  rcases hsrc with h | h <;> rw [h]
  · exact hwf.2.2 _ _ _
  · exact hwf.2.1 _ _ _

/-- Invariant of the scan loop: starting with a cleared fragment NACK, the
loop preserves the bitmap base and ends in one of three shapes — ran off the
end (scratch state untouched, `true`), stopped on ALL_ADVERTISED (no
fragment NACK, outcome is the emptiness of the truncated bitmap), or stopped
on FRAGMENTS_MISSING (positive `nackfrag_seq` with a well-formed fragment
set, `true`). -/
theorem makebitmaps_scan_inv (defrag : Int → Nat → DefragOut) (ls : Int)
    (lf : Nat) (base : Int) (bits : Nat → Bool) (hbase : 1 ≤ base)
    (hdf : ∀ seq fragnum, (defrag seq fragnum).wf) :
    ∀ (l : List Nat) (info : AddAckNackInfo), info.nackfrag_seq = 0 →
      (makebitmaps_scan defrag ls lf base bits info l).1.acknack_set.bitmap_base
        = info.acknack_set.bitmap_base ∧
      (((makebitmaps_scan defrag ls lf base bits info l).1.nackfrag_seq = 0 ∧
        (makebitmaps_scan defrag ls lf base bits info l).1.acknack_set =
          info.acknack_set ∧
        (makebitmaps_scan defrag ls lf base bits info l).2 = true) ∨
       ((makebitmaps_scan defrag ls lf base bits info l).1.nackfrag_seq = 0 ∧
        (makebitmaps_scan defrag ls lf base bits info l).2 =
          decide (0 <
            (makebitmaps_scan defrag ls lf base bits info l).1.acknack_set.numbits)) ∨
       (0 < (makebitmaps_scan defrag ls lf base bits info l).1.nackfrag_seq ∧
        0 < (makebitmaps_scan defrag ls lf base bits info l).1.nackfrag_set.numbits ∧
        (makebitmaps_scan defrag ls lf base bits info l).1.nackfrag_set.bitmap_base +
          (makebitmaps_scan defrag ls lf base bits info l).1.nackfrag_set.numbits
          < 2 ^ 32 ∧
        (makebitmaps_scan defrag ls lf base bits info l).2 = true)) := by
  intro l
  induction l with
  | nil => intro info h0; exact ⟨rfl, Or.inl ⟨h0, rfl, rfl⟩⟩
  | cons i rest ih =>
    intro info h0
    simp only [makebitmaps_scan]
    by_cases hb : bits i = false
    · rw [if_pos hb]
      exact ih info h0
    · rw [if_neg hb]
      rcases hd : (defrag (base + i) (if (base + i : Int) = ls then lf
          else UINT32_MAX)).result with _ | _ | _
      · exact ih info h0
      · exact ⟨rfl, Or.inr (Or.inl ⟨rfl, rfl⟩)⟩
      · have hw := hdf (base + i) (if (base + i : Int) = ls then lf
          else UINT32_MAX) hd
        refine ⟨rfl, Or.inr (Or.inr ⟨?_, hw.1, hw.2, rfl⟩)⟩
        show 0 < base + (i : Int)
        omega

/-- Invariants of the bitmap builder under well-formed oracles: a `true`
outcome carries a non-empty sequence bitmap or a fragment NACK; a fragment
NACK has a non-empty, non-wrapping fragment set; and the bitmap base is a
valid sequence number. -/
theorem add_AckNack_makebitmaps_inv (cfg : Config) (orc : Oracles)
    (pwr : ProxyWriter) (rwn : PwrRdMatch) (hwf : Oracles.wf orc) :
    ((add_AckNack_makebitmaps cfg orc pwr rwn).2 = true →
      0 < (add_AckNack_makebitmaps cfg orc pwr rwn).1.acknack_set.numbits ∨
      0 < (add_AckNack_makebitmaps cfg orc pwr rwn).1.nackfrag_seq) ∧
    (0 < (add_AckNack_makebitmaps cfg orc pwr rwn).1.nackfrag_seq →
      0 < (add_AckNack_makebitmaps cfg orc pwr rwn).1.nackfrag_set.numbits ∧
      (add_AckNack_makebitmaps cfg orc pwr rwn).1.nackfrag_set.bitmap_base +
        (add_AckNack_makebitmaps cfg orc pwr rwn).1.nackfrag_set.numbits <
        2 ^ 32) ∧
    1 ≤ (add_AckNack_makebitmaps cfg orc pwr rwn).1.acknack_set.bitmap_base ∧
    ((add_AckNack_makebitmaps cfg orc pwr rwn).2 = false →
      (add_AckNack_makebitmaps cfg orc pwr rwn).1.nackfrag_seq = 0) := by
  have hnmwf := makebitmaps_nm_wf cfg orc pwr rwn hwf
  set nm := makebitmaps_nm cfg orc pwr rwn with hnm
  by_cases h0 : nm.numbits = 0
  · simp only [add_AckNack_makebitmaps, ← hnm]
    rw [if_pos h0]
    exact ⟨by simp, by simp, hnmwf.1, fun _ => rfl⟩
  · simp only [add_AckNack_makebitmaps, ← hnm]
    rw [if_neg h0]
    have hscan := makebitmaps_scan_inv orc.defrag pwr.last_seq pwr.last_fragnum
      nm.bitmap_base nm.bits hnmwf.1 hwf.1 (List.range nm.numbits)
      { nack_sent_on_nackdelay := false,
        acknack_set := ⟨nm.bitmap_base, nm.numbits⟩,
        acknack_bits := nm.bits,
        nackfrag_seq := 0,
        nackfrag_set := ⟨0, 0⟩,
        nackfrag_bits := fun _ => false } rfl
    obtain ⟨hbase, hcases⟩ := hscan
    refine ⟨?_, ?_, ?_, ?_⟩
    · intro h2
      rcases hcases with ⟨hseq, hset, -⟩ | ⟨hseq, h2'⟩ | ⟨hseq, -, -, -⟩
      · left
        rw [hset]
        show 0 < nm.numbits
        omega
      · left
        rw [h2] at h2'
        exact of_decide_eq_true h2'.symm
      · right
        exact hseq
    · intro hpos
      rcases hcases with ⟨hseq, -, -⟩ | ⟨hseq, -⟩ | ⟨-, hn, hw, -⟩
      · rw [hseq] at hpos
        exact absurd hpos (by simp)
      · rw [hseq] at hpos
        exact absurd hpos (by simp)
      · exact ⟨hn, hw⟩
    · rw [hbase]
      exact hnmwf.1
    · intro hf
      rcases hcases with ⟨-, -, ht⟩ | ⟨hseq, -⟩ | ⟨-, -, -, ht⟩
      · rw [ht] at hf
        cases hf
      · exact hseq
      · rw [ht] at hf
        cases hf

/-- C3: if the reorder map is empty the builder clears `nackfrag.seq` and
returns `false`; otherwise it scans set bits in order: with no terminating
verdict it returns `true` with the full bitmap and no NackFrag; at the first
set bit (index `i`) whose verdict is ALL_ADVERTISED_FRAGMENTS_KNOWN it
truncates the bitmap to length `i`, emits no NackFrag and returns `i > 0`;
at the first set bit whose verdict is FRAGMENTS_MISSING it truncates to
length `i`, records `nackfrag.seq = base + i` with the fragment bitmap, and
returns `true`. -/
theorem add_AckNack_makebitmaps_spec (cfg : Config) (orc : Oracles)
    (pwr : ProxyWriter) (rwn : PwrRdMatch) :
    ((makebitmaps_nm cfg orc pwr rwn).numbits = 0 →
      (add_AckNack_makebitmaps cfg orc pwr rwn).1.nackfrag_seq = 0 ∧
      (add_AckNack_makebitmaps cfg orc pwr rwn).2 = false) ∧
    ((makebitmaps_nm cfg orc pwr rwn).numbits ≠ 0 →
      (∀ k, k < (makebitmaps_nm cfg orc pwr rwn).numbits →
        ¬ scan_hit orc.defrag pwr.last_seq pwr.last_fragnum
            (makebitmaps_nm cfg orc pwr rwn).bitmap_base
            (makebitmaps_nm cfg orc pwr rwn).bits k) →
      (add_AckNack_makebitmaps cfg orc pwr rwn).2 = true ∧
      (add_AckNack_makebitmaps cfg orc pwr rwn).1.acknack_set.numbits =
        (makebitmaps_nm cfg orc pwr rwn).numbits ∧
      (add_AckNack_makebitmaps cfg orc pwr rwn).1.nackfrag_seq = 0) ∧
    (∀ i, (makebitmaps_nm cfg orc pwr rwn).numbits ≠ 0 →
      i < (makebitmaps_nm cfg orc pwr rwn).numbits →
      scan_hit orc.defrag pwr.last_seq pwr.last_fragnum
        (makebitmaps_nm cfg orc pwr rwn).bitmap_base
        (makebitmaps_nm cfg orc pwr rwn).bits i →
      (∀ k, k < i → ¬ scan_hit orc.defrag pwr.last_seq pwr.last_fragnum
          (makebitmaps_nm cfg orc pwr rwn).bitmap_base
          (makebitmaps_nm cfg orc pwr rwn).bits k) →
      (((orc.defrag ((makebitmaps_nm cfg orc pwr rwn).bitmap_base + i)
          (if ((makebitmaps_nm cfg orc pwr rwn).bitmap_base + i : Int) = pwr.last_seq
           then pwr.last_fragnum else UINT32_MAX)).result =
            DefragNackmapResult.all_advertised_fragments_known →
        (add_AckNack_makebitmaps cfg orc pwr rwn).1.acknack_set.numbits = i ∧
        (add_AckNack_makebitmaps cfg orc pwr rwn).1.nackfrag_seq = 0 ∧
        (add_AckNack_makebitmaps cfg orc pwr rwn).2 = decide (0 < i)) ∧
      ((orc.defrag ((makebitmaps_nm cfg orc pwr rwn).bitmap_base + i)
          (if ((makebitmaps_nm cfg orc pwr rwn).bitmap_base + i : Int) = pwr.last_seq
           then pwr.last_fragnum else UINT32_MAX)).result =
            DefragNackmapResult.fragments_missing →
        (add_AckNack_makebitmaps cfg orc pwr rwn).1.acknack_set.numbits = i ∧
        (add_AckNack_makebitmaps cfg orc pwr rwn).1.nackfrag_seq =
          (makebitmaps_nm cfg orc pwr rwn).bitmap_base + i ∧
        (add_AckNack_makebitmaps cfg orc pwr rwn).1.nackfrag_set =
          ⟨(orc.defrag ((makebitmaps_nm cfg orc pwr rwn).bitmap_base + i)
              (if ((makebitmaps_nm cfg orc pwr rwn).bitmap_base + i : Int) = pwr.last_seq
               then pwr.last_fragnum else UINT32_MAX)).map_base,
            (orc.defrag ((makebitmaps_nm cfg orc pwr rwn).bitmap_base + i)
              (if ((makebitmaps_nm cfg orc pwr rwn).bitmap_base + i : Int) = pwr.last_seq
               then pwr.last_fragnum else UINT32_MAX)).map_numbits⟩ ∧
        (add_AckNack_makebitmaps cfg orc pwr rwn).2 = true))) := by
  set nm := makebitmaps_nm cfg orc pwr rwn with hnm
  refine ⟨fun h0 => ?_, fun hne hno => ?_, fun i hne hi hhit hmin => ?_⟩
  · unfold add_AckNack_makebitmaps
    rw [← hnm]
    simp [h0]
  · unfold add_AckNack_makebitmaps
    rw [← hnm]
    rw [if_neg hne]
    rw [makebitmaps_scan_no_hit orc.defrag pwr.last_seq pwr.last_fragnum
      nm.bitmap_base nm.bits _ (List.range nm.numbits)
      (fun k hk => hno k (List.mem_range.mp hk))]
    exact ⟨rfl, rfl, rfl⟩
  · have hsplit := range_split_at nm.numbits i hi
    constructor
    · intro hv
      unfold add_AckNack_makebitmaps
      rw [← hnm, if_neg hne, hsplit]
      rw [makebitmaps_scan_first_hit orc.defrag pwr.last_seq pwr.last_fragnum
        nm.bitmap_base nm.bits _ (List.range i) i _
        (fun k hk => hmin k (List.mem_range.mp hk)) hhit]
      unfold scan_stop_result
      simp only [hv]
      exact ⟨trivial, trivial, trivial⟩
    · intro hv
      unfold add_AckNack_makebitmaps
      rw [← hnm, if_neg hne, hsplit]
      rw [makebitmaps_scan_first_hit orc.defrag pwr.last_seq pwr.last_fragnum
        nm.bitmap_base nm.bits _ (List.range i) i _
        (fun k hk => hmin k (List.mem_range.mp hk)) hhit]
      unfold scan_stop_result
      simp only [hv]
      exact ⟨trivial, trivial, trivial, trivial⟩

/-- C8: the source selector picks the per-match reorder with its own
`next_seq` and `notail = false` when out of sync or filtered; the proxy-writer
reorder with its `next_seq` and `notail = false` when late-ack mode is off;
and otherwise the proxy-writer reorder with
`bitmap_base = next_deliv_seq (pw, reorder.next_seq)` and `notail` the
delivery-queue-full predicate. -/
theorem add_AckNack_getsource_spec (cfg : Config) (orc : Oracles)
    (pwr : ProxyWriter) (rwn : PwrRdMatch) :
    (rwn.in_sync = SyncState.prmss_out_of_sync ∨ rwn.filtered = true →
      add_AckNack_getsource cfg orc pwr rwn =
        (orc.match_reorder, orc.match_reorder.next_seq, false)) ∧
    (rwn.in_sync ≠ SyncState.prmss_out_of_sync → rwn.filtered = false →
      cfg.late_ack_mode = false →
      add_AckNack_getsource cfg orc pwr rwn =
        (orc.pw_reorder, orc.pw_reorder.next_seq, false)) ∧
    (rwn.in_sync ≠ SyncState.prmss_out_of_sync → rwn.filtered = false →
      cfg.late_ack_mode = true →
      add_AckNack_getsource cfg orc pwr rwn =
        (orc.pw_reorder,
         next_deliv_seq pwr.next_deliv_seq_lowword orc.pw_reorder.next_seq,
         orc.dqueue_full)) := by
  refine ⟨fun h => ?_, fun h1 h2 h3 => ?_, fun h1 h2 h3 => ?_⟩ <;>
    simp_all [add_AckNack_getsource]

set_option maxHeartbeats 2000000 in
/-- C1: whenever the bitmap builder produced NACK material, the decision
function classifies exactly as the specification states (NACK on region
advance, NACK on directed heartbeat with no pending nackdelay NACK, NACK on
nack delay expiry, else SUPPRESSED_NACK; pure-ACK results demoted to
SUPPRESSED_ACK unless the writer is owed one; fragment-only NACKs become
NACKFRAG_ONLY); the proposed `nack_sent_on_nackdelay` is cleared by the two
fresh-NACK branches, set by the nackdelay branch and preserved otherwise;
and the SUPPRESSED_NACK branch clears the bitmap to a pure ACK. -/
theorem get_AckNack_info_classification (cfg : Config) (orc : Oracles)
    (pwr : ProxyWriter) (rwn : PwrRdMatch) (ap np : Bool)
    (hmb : (add_AckNack_makebitmaps cfg orc pwr rwn).2 = true) :
    (get_AckNack_info cfg orc pwr rwn ap np).1 =
      spec_classify_nack_material rwn
        (add_AckNack_makebitmaps cfg orc pwr rwn).1 ap np ∧
    (get_AckNack_info cfg orc pwr rwn ap np).2.1.nack_sent_on_nackdelay =
      (if region_advanced rwn (add_AckNack_makebitmaps cfg orc pwr rwn).1 then
        false
       else if rwn.directed_heartbeat = true ∧
          (rwn.nack_sent_on_nackdelay = false ∨ np = true) then false
       else if np = true then true
       else rwn.nack_sent_on_nackdelay) ∧
    (¬ region_advanced rwn (add_AckNack_makebitmaps cfg orc pwr rwn).1 →
      ¬ (rwn.directed_heartbeat = true ∧
         (rwn.nack_sent_on_nackdelay = false ∨ np = true)) →
      np = false →
      (get_AckNack_info cfg orc pwr rwn ap np).2.1.acknack_set.numbits = 0 ∧
      (get_AckNack_info cfg orc pwr rwn ap np).2.1.nackfrag_seq = 0) := by
  set mb := add_AckNack_makebitmaps cfg orc pwr rwn with hmbdef
  simp only [get_AckNack_info, spec_classify_nack_material, ← hmbdef, hmb]
  clear_value mb
  clear hmbdef
  by_cases hc1 : region_advanced rwn mb.1
  · have hc1' : info_seq_base mb.1 > rwn.last_nack.seq_end_p1 ∨
        (info_seq_base mb.1 = rwn.last_nack.seq_end_p1 ∧
         info_frag_base mb.1 ≥ rwn.last_nack.frag_end_p1) := hc1
    rw [if_pos hc1, if_pos hc1']
    refine ⟨?_, ?_, fun h _ _ => absurd hc1 h⟩
    · split_ifs <;> simp_all
    · simp [hc1]
      split_ifs <;> simp_all
  · have hc1' : ¬ (info_seq_base mb.1 > rwn.last_nack.seq_end_p1 ∨
        (info_seq_base mb.1 = rwn.last_nack.seq_end_p1 ∧
         info_frag_base mb.1 ≥ rwn.last_nack.frag_end_p1)) := hc1
    rw [if_neg hc1, if_neg hc1']
    by_cases hc2 : rwn.directed_heartbeat = true ∧
        (rwn.nack_sent_on_nackdelay = false ∨ np = true)
    · rw [if_pos hc2, if_pos hc2]
      refine ⟨?_, ?_, fun _ h _ => absurd hc2 h⟩
      · split_ifs <;> simp_all
      · simp [hc1, hc2]
        split_ifs <;> simp_all
    · rw [if_neg hc2, if_neg hc2]
      by_cases hc3 : np = true
      · rw [if_pos hc3, if_pos hc3]
        refine ⟨?_, ?_, fun _ _ h => by simp [h] at hc3⟩
        · split_ifs <;> simp_all
        · simp [hc1, hc2, hc3]
          split_ifs <;> simp_all
      · rw [if_neg hc3, if_neg hc3]
        refine ⟨?_, ?_, fun _ _ _ => ?_⟩
        · by_cases hc4 : rwn.heartbeat_since_ack = true ∧ rwn.ack_requested = true
          · by_cases hc5 : info_seq_base mb.1 > rwn.last_nack.seq_base ∨ ap = true
            · simp [hc4, hc5, info_nack_summary]
            · simp [hc4, hc5, info_nack_summary]
          · have hc45 : ¬ (rwn.heartbeat_since_ack = true ∧
                rwn.ack_requested = true ∧
                (rwn.last_nack.seq_base < info_seq_base mb.1 ∨ ap = true)) :=
              fun h => hc4 ⟨h.1, h.2.1⟩
            simp [hc4, hc45, info_nack_summary]
        · simp [hc1, hc2, hc3]
          split_ifs <;> simp_all
        · split_ifs <;> simp_all

/-- C5 counterexample: a state with NACK material, `seq_base` equal to
`last_nack.seq_end_p1`, `frag_base` strictly below `last_nack.frag_end_p1`
and the nack delay not yet expired for which the classifier returns NACK
(not SUPPRESSED_NACK), because a directed heartbeat arrived while no
nackdelay-motivated NACK was pending. -/
theorem get_AckNack_info_overlap_counterexample :
    (add_AckNack_makebitmaps cfg_base orc_c5 pwr_c5 rwn_c5).2 = true ∧
    info_seq_base (add_AckNack_makebitmaps cfg_base orc_c5 pwr_c5 rwn_c5).1 =
      rwn_c5.last_nack.seq_end_p1 ∧
    info_frag_base (add_AckNack_makebitmaps cfg_base orc_c5 pwr_c5 rwn_c5).1 <
      rwn_c5.last_nack.frag_end_p1 ∧
    (get_AckNack_info cfg_base orc_c5 pwr_c5 rwn_c5 false false).1 ≠
      AckNackResult.aanr_suppressed_nack := by
  decide

/-- C5 amended: with NACK material, `seq_base = last_nack.seq_end_p1`,
`frag_base < last_nack.frag_end_p1` and the nack delay not yet expired,
provided additionally no directed heartbeat is pending with a clear
`nack_sent_on_nackdelay` flag, the classifier returns SUPPRESSED_NACK when
the pure-ACK gate passes (`heartbeat_since_ack` and `ack_requested` and
base progress or ack delay expiry) and SUPPRESSED_ACK otherwise. -/
theorem get_AckNack_info_overlap_suppresses (cfg : Config) (orc : Oracles)
    (pwr : ProxyWriter) (rwn : PwrRdMatch) (ap : Bool)
    (hmb : (add_AckNack_makebitmaps cfg orc pwr rwn).2 = true)
    (hseq : info_seq_base (add_AckNack_makebitmaps cfg orc pwr rwn).1 =
      rwn.last_nack.seq_end_p1)
    (hfrag : info_frag_base (add_AckNack_makebitmaps cfg orc pwr rwn).1 <
      rwn.last_nack.frag_end_p1)
    (hdir : ¬ (rwn.directed_heartbeat = true ∧
      rwn.nack_sent_on_nackdelay = false)) :
    (get_AckNack_info cfg orc pwr rwn ap false).1 =
      (if rwn.heartbeat_since_ack = true ∧ rwn.ack_requested = true ∧
          (info_seq_base (add_AckNack_makebitmaps cfg orc pwr rwn).1 >
            rwn.last_nack.seq_base ∨ ap = true) then
        AckNackResult.aanr_suppressed_nack
      else AckNackResult.aanr_suppressed_ack) := by
  set mb := add_AckNack_makebitmaps cfg orc pwr rwn with hmbdef
  simp only [get_AckNack_info, ← hmbdef, hmb]
  clear_value mb
  clear hmbdef
  have hc1 : ¬ region_advanced rwn mb.1 := by
    unfold region_advanced
    rintro (h | ⟨-, h⟩) <;> omega
  have hc2 : ¬ (rwn.directed_heartbeat = true ∧
      (rwn.nack_sent_on_nackdelay = false ∨ (false : Bool) = true)) := by
    simpa using hdir
  rw [if_neg hc1, if_neg hc2, if_neg (by simp : ¬ ((false : Bool) = true))]
  by_cases hc4 : rwn.heartbeat_since_ack = true ∧ rwn.ack_requested = true
  · by_cases hc5 : info_seq_base mb.1 > rwn.last_nack.seq_base ∨ ap = true
    · simp [hc4, hc5, info_nack_summary]
    · simp [hc4, hc5, info_nack_summary]
  · have hc45 : ¬ (rwn.heartbeat_since_ack = true ∧ rwn.ack_requested = true ∧
        (rwn.last_nack.seq_base < info_seq_base mb.1 ∨ ap = true)) :=
      fun h => hc4 ⟨h.1, h.2.1⟩
    simp [hc4, hc45, info_nack_summary]

/-- Witness for the amended C5 at the concrete overlap scenario without the
directed heartbeat: the classifier returns SUPPRESSED_NACK. -/
theorem get_AckNack_info_overlap_suppresses_witness :
    (get_AckNack_info cfg_base orc_c5 pwr_c5 rwn_c5_undirected false false).1 =
      AckNackResult.aanr_suppressed_nack := by
  have h := get_AckNack_info_overlap_suppresses cfg_base orc_c5 pwr_c5
    rwn_c5_undirected false (by decide) (by decide) (by decide) (by decide)
  rw [h]
  decide

/-- C10: the predictive entry point `sched_acknack_if_needed` modifies no
field of the proxy writer or the reader match; its only effect is the
optional rescheduling, so repeating the call yields the identical result. -/
theorem sched_acknack_if_needed_no_state_change (cfg : Config) (orc : Oracles)
    (pwr : ProxyWriter) (rwn : PwrRdMatch) (tnow : Int) (avoid : Bool) :
    (sched_acknack_if_needed cfg orc pwr rwn tnow avoid).rwn = rwn ∧
    (sched_acknack_if_needed cfg orc pwr rwn tnow avoid).pwr = pwr ∧
    sched_acknack_if_needed cfg orc
        (sched_acknack_if_needed cfg orc pwr rwn tnow avoid).pwr
        (sched_acknack_if_needed cfg orc pwr rwn tnow avoid).rwn tnow avoid =
      sched_acknack_if_needed cfg orc pwr rwn tnow avoid := by
  have h1 : (sched_acknack_if_needed cfg orc pwr rwn tnow avoid).rwn = rwn := by
    simp only [sched_acknack_if_needed]
    split_ifs <;> rfl
  have h2 : (sched_acknack_if_needed cfg orc pwr rwn tnow avoid).pwr = pwr := by
    simp only [sched_acknack_if_needed]
    split_ifs <;> rfl
  exact ⟨h1, h2, by rw [h1, h2]⟩

set_option maxHeartbeats 4000000 in
/-- C9: when the security hook reduces the built message to size 0, the
committer returns no message and reschedules nothing, leaves `rm.count`,
`rm.last_nack`, `rm.t_last_ack`, `rm.t_last_nack` and the proxy writer
unchanged, while the step-2 flag clears (directed_heartbeat,
heartbeat_since_ack, heartbeatfrag_since_ack cleared, nack_sent_on_nackdelay
stored) remain in effect. -/
theorem make_and_resched_security_drop (cfg : Config) (orc : Oracles)
    (pwr : ProxyWriter) (rwn : PwrRdMatch) (tnow : Int) (avoid : Bool)
    (hdrop : orc.security_drops = true)
    (halloc : orc.alloc_ok = true)
    (hnsa : (get_AckNack_info cfg orc pwr rwn
        (decide (tnow ≥ rwn.t_last_ack + cfg.ack_delay))
        (decide (tnow ≥ rwn.t_last_nack + cfg.nack_delay))).1 ≠
      AckNackResult.aanr_suppressed_ack)
    (hnsn : ¬ (avoid = true ∧ (get_AckNack_info cfg orc pwr rwn
        (decide (tnow ≥ rwn.t_last_ack + cfg.ack_delay))
        (decide (tnow ≥ rwn.t_last_nack + cfg.nack_delay))).1 =
      AckNackResult.aanr_suppressed_nack)) :
    (make_and_resched_acknack cfg orc pwr rwn tnow avoid).msg = none ∧
    (make_and_resched_acknack cfg orc pwr rwn tnow avoid).resched = none ∧
    (make_and_resched_acknack cfg orc pwr rwn tnow avoid).rwn.count =
      rwn.count ∧
    (make_and_resched_acknack cfg orc pwr rwn tnow avoid).rwn.last_nack =
      rwn.last_nack ∧
    (make_and_resched_acknack cfg orc pwr rwn tnow avoid).rwn.t_last_ack =
      rwn.t_last_ack ∧
    (make_and_resched_acknack cfg orc pwr rwn tnow avoid).rwn.t_last_nack =
      rwn.t_last_nack ∧
    (make_and_resched_acknack cfg orc pwr rwn tnow avoid).rwn.directed_heartbeat
      = false ∧
    (make_and_resched_acknack cfg orc pwr rwn tnow avoid).rwn.heartbeat_since_ack
      = false ∧
    (make_and_resched_acknack cfg orc pwr rwn tnow
        avoid).rwn.heartbeatfrag_since_ack = false ∧
    (make_and_resched_acknack cfg orc pwr rwn tnow
        avoid).rwn.nack_sent_on_nackdelay =
      (get_AckNack_info cfg orc pwr rwn
        (decide (tnow ≥ rwn.t_last_ack + cfg.ack_delay))
        (decide (tnow ≥ rwn.t_last_nack + cfg.nack_delay))).2.1.nack_sent_on_nackdelay ∧
    (make_and_resched_acknack cfg orc pwr rwn tnow avoid).pwr = pwr := by
  simp only [make_and_resched_acknack]
  rw [if_neg hnsa, if_neg hnsn]
  simp only [halloc, xmsg_size, hdrop]
  split_ifs <;> simp_all

/-- Witness for C1 at the concrete overlap scenario. -/
theorem get_AckNack_info_classification_witness :
    (get_AckNack_info cfg_base orc_c5 pwr_c5 rwn_c5 false false).1 =
      spec_classify_nack_material rwn_c5
        (add_AckNack_makebitmaps cfg_base orc_c5 pwr_c5 rwn_c5).1 false false :=
  (get_AckNack_info_classification cfg_base orc_c5 pwr_c5 rwn_c5 false false
    (by decide)).1

/-- Witness for C3 at the concrete overlap scenario: the first set bit
(index 0, sequence 10) has verdict FRAGMENTS_MISSING, so the builder records
`nackfrag.seq = 10` and returns `true`. -/
theorem add_AckNack_makebitmaps_spec_witness :
    (add_AckNack_makebitmaps cfg_base orc_c5 pwr_c5 rwn_c5).1.nackfrag_seq = 10 ∧
    (add_AckNack_makebitmaps cfg_base orc_c5 pwr_c5 rwn_c5).2 = true := by
  have h := (add_AckNack_makebitmaps_spec cfg_base orc_c5 pwr_c5 rwn_c5).2.2 0
    (by decide) (by decide) (by decide)
    (fun k hk => (Nat.not_lt_zero k hk).elim)
  have h2 := h.2 (by decide)
  refine ⟨?_, h2.2.2.2⟩
  rw [h2.2.1]
  decide

/-- Witness for C8 at a concrete filtered match. -/
theorem add_AckNack_getsource_spec_witness :
    add_AckNack_getsource cfg_base orc_c5 pwr_c5
        { rwn_c5 with filtered := true } =
      (orc_c5.match_reorder, orc_c5.match_reorder.next_seq, false) :=
  (add_AckNack_getsource_spec cfg_base orc_c5 pwr_c5
    { rwn_c5 with filtered := true }).1 (Or.inr rfl)

/-- Witness for C9 at the concrete overlap scenario with a dropping security
layer. -/
theorem make_and_resched_security_drop_witness :
    (make_and_resched_acknack cfg_base orc_c9 pwr_c5 rwn_c5 100 false).msg =
      none ∧
    (make_and_resched_acknack cfg_base orc_c9 pwr_c5 rwn_c5 100 false).rwn.count
      = rwn_c5.count := by
  have h := make_and_resched_security_drop cfg_base orc_c9 pwr_c5 rwn_c5 100
    false rfl rfl (by decide) (by simp)
  exact ⟨h.1, h.2.2.1⟩

/-- C4 counterexample: in scenario S2 the AckNack count field on the wire is
the match's count value before the increment (5), while the post-state count
is 6 — the wire count is not `count_prev + 1`. -/
theorem make_pure_ack_count_counterexample :
    ((make_and_resched_acknack cfg_base orc_ack pwr_s2 rwn_s2 100 false).msg.bind
        (·.acknack)).map (fun a => a.count) = some 5 ∧
    (make_and_resched_acknack cfg_base orc_ack pwr_s2 rwn_s2 100 false).rwn.count
      = 6 ∧
    ((make_and_resched_acknack cfg_base orc_ack pwr_s2 rwn_s2 100 false).msg.bind
        (·.acknack)).map (fun a => a.count) ≠
      some (make_and_resched_acknack cfg_base orc_ack pwr_s2 rwn_s2 100
        false).rwn.count := by
  decide

/-- C4 amended: in scenario S2 (pure ACK owed: empty nackmap based at 1,
`heartbeat_since_ack`, `ack_requested`, ack delay expired), the committer
emits an AckNack with `bitmap_base = 1`, `numbits = 0` and count equal to the
match's count value before this emission, no NackFrag, and the post-state has
`ack_requested = false`, `t_last_ack = tnow` and the count incremented. -/
theorem make_pure_ack_commit (cfg : Config) (orc : Oracles)
    (pwr : ProxyWriter) (rwn : PwrRdMatch) (tnow : Int) (avoid : Bool)
    (hnm0 : (makebitmaps_nm cfg orc pwr rwn).numbits = 0)
    (hnm1 : (makebitmaps_nm cfg orc pwr rwn).bitmap_base = 1)
    (hhb : rwn.heartbeat_since_ack = true)
    (hack : rwn.ack_requested = true)
    (had : tnow ≥ rwn.t_last_ack + cfg.ack_delay)
    (halloc : orc.alloc_ok = true)
    (hsec : orc.security_drops = false) :
    (make_and_resched_acknack cfg orc pwr rwn tnow avoid).aanr =
      AckNackResult.aanr_ack ∧
    ((make_and_resched_acknack cfg orc pwr rwn tnow avoid).msg.bind
        (·.acknack)).map (fun a => (a.readerSNState, a.count)) =
      some (⟨1, 0⟩, rwn.count) ∧
    ((make_and_resched_acknack cfg orc pwr rwn tnow avoid).msg.bind
        (·.nackfrag)) = none ∧
    (make_and_resched_acknack cfg orc pwr rwn tnow avoid).rwn.ack_requested =
      false ∧
    (make_and_resched_acknack cfg orc pwr rwn tnow avoid).rwn.t_last_ack =
      tnow ∧
    (make_and_resched_acknack cfg orc pwr rwn tnow avoid).rwn.count =
      (rwn.count + 1) % 2 ^ 32 := by
  have hmb : add_AckNack_makebitmaps cfg orc pwr rwn =
      ({ nack_sent_on_nackdelay := false,
         acknack_set := ⟨1, 0⟩,
         acknack_bits := (makebitmaps_nm cfg orc pwr rwn).bits,
         nackfrag_seq := 0, nackfrag_set := ⟨0, 0⟩,
         nackfrag_bits := fun _ => false }, false) := by
    simp only [add_AckNack_makebitmaps, hnm0, hnm1]
    simp
  have hap : decide (tnow ≥ rwn.t_last_ack + cfg.ack_delay) = true :=
    decide_eq_true had
  have hg : get_AckNack_info cfg orc pwr rwn
      (decide (tnow ≥ rwn.t_last_ack + cfg.ack_delay))
      (decide (tnow ≥ rwn.t_last_nack + cfg.nack_delay)) =
      (AckNackResult.aanr_ack,
       { nack_sent_on_nackdelay := rwn.nack_sent_on_nackdelay,
         acknack_set := ⟨1, 0⟩,
         acknack_bits := (makebitmaps_nm cfg orc pwr rwn).bits,
         nackfrag_seq := 0, nackfrag_set := ⟨0, 0⟩,
         nackfrag_bits := fun _ => false },
       ⟨1, 0, 0, 0⟩) := by
    simp only [get_AckNack_info, hmb, hap]
    simp [hhb, hack, info_seq_base]
  simp only [make_and_resched_acknack, hg]
  simp only [reduceCtorEq, if_false, false_and, if_neg (by simp : ¬ False)]
  simp [halloc, xmsg_size, hsec, add_AckNack]
  split_ifs <;> simp_all

set_option maxHeartbeats 2000000 in
/-- The classifier produces a fragment NACK (positive `nackfrag.seq`)
exactly when the result is NACK or NACKFRAG_ONLY and the summary's
`frag_end_p1` is nonzero (well-formed oracles preclude the fragment range
wrapping to zero). -/
theorem get_AckNack_info_nackfrag_iff (cfg : Config) (orc : Oracles)
    (pwr : ProxyWriter) (rwn : PwrRdMatch) (ap np : Bool)
    (hwf : Oracles.wf orc) :
    (((get_AckNack_info cfg orc pwr rwn ap np).1 = AckNackResult.aanr_nack ∨
      (get_AckNack_info cfg orc pwr rwn ap np).1 =
        AckNackResult.aanr_nackfrag_only) ∧
     (get_AckNack_info cfg orc pwr rwn ap np).2.2.frag_end_p1 ≠ 0) ↔
    0 < (get_AckNack_info cfg orc pwr rwn ap np).2.1.nackfrag_seq := by
  have hinv := add_AckNack_makebitmaps_inv cfg orc pwr rwn hwf
  set mb := add_AckNack_makebitmaps cfg orc pwr rwn with hmbdef
  simp only [get_AckNack_info, ← hmbdef]
  clear_value mb
  clear hmbdef
  rcases hmb2 : mb.2 with _ | _
  · have hseq0 : mb.1.nackfrag_seq = 0 := hinv.2.2.2 hmb2
    simp only [hmb2]
    rw [if_pos trivial, if_pos (Or.inl rfl)]
    split_ifs <;> simp [hseq0]
  · have hseqwf := hinv.2.1
    try simp only [hmb2]
    have hfrag : 0 < mb.1.nackfrag_seq →
        (mb.1.nackfrag_set.bitmap_base + mb.1.nackfrag_set.numbits) % 2 ^ 32 ≠ 0 := by
      intro hs
      obtain ⟨hn, hb⟩ := hseqwf hs
      rw [Nat.mod_eq_of_lt hb]
      omega
    by_cases hc1 : region_advanced rwn mb.1
    · simp only [if_pos hc1]
      rw [if_neg (by simp)]
      by_cases hseq : 0 < mb.1.nackfrag_seq
      · simp [info_nack_summary, info_frag_end_p1, hseq, hfrag hseq]
        split_ifs <;> simp <;>
          exact iff_of_true (by simpa using hfrag hseq) hseq
      · simp [info_nack_summary, info_frag_end_p1, hseq]
    · simp only [if_neg hc1]
      by_cases hc2 : rwn.directed_heartbeat = true ∧
          (rwn.nack_sent_on_nackdelay = false ∨ np = true)
      · simp only [if_pos hc2]
        rw [if_neg (by simp)]
        by_cases hseq : 0 < mb.1.nackfrag_seq
        · simp [info_nack_summary, info_frag_end_p1, hseq, hfrag hseq]
          split_ifs <;> simp <;>
            exact iff_of_true (by simpa using hfrag hseq) hseq
        · simp [info_nack_summary, info_frag_end_p1, hseq]
      · simp only [if_neg hc2]
        by_cases hc3 : np = true
        · simp only [if_pos hc3]
          rw [if_neg (by simp)]
          by_cases hseq : 0 < mb.1.nackfrag_seq
          · simp [info_nack_summary, info_frag_end_p1, hseq, hfrag hseq]
            split_ifs <;> simp <;>
              exact iff_of_true (by simpa using hfrag hseq) hseq
          · simp [info_nack_summary, info_frag_end_p1, hseq]
        · simp only [if_neg hc3]
          split_ifs <;> simp_all

set_option maxHeartbeats 4000000 in
/-- C7: across every successful emission, `pw.nackfragcount` increases by
exactly 1 when a NackFrag submessage is in the message — which happens
exactly when the classifier produced `nackfrag.seq > 0` — and is unchanged
otherwise; the count serialized into the NackFrag is the pre-increment
value. -/
theorem nackfragcount_per_nackfrag (cfg : Config) (orc : Oracles)
    (pwr : ProxyWriter) (rwn : PwrRdMatch) (tnow : Int) (avoid : Bool)
    (hwf : Oracles.wf orc)
    (hcnt : pwr.nackfragcount + 1 < 2 ^ 32) :
    ∀ m, (make_and_resched_acknack cfg orc pwr rwn tnow avoid).msg = some m →
      (m.nackfrag.isSome = true ↔
        0 < (get_AckNack_info cfg orc pwr rwn
          (decide (tnow ≥ rwn.t_last_ack + cfg.ack_delay))
          (decide (tnow ≥ rwn.t_last_nack + cfg.nack_delay))).2.1.nackfrag_seq) ∧
      (m.nackfrag.isSome = true →
        (make_and_resched_acknack cfg orc pwr rwn tnow avoid).pwr.nackfragcount
          = pwr.nackfragcount + 1) ∧
      (m.nackfrag = none →
        (make_and_resched_acknack cfg orc pwr rwn tnow avoid).pwr.nackfragcount
          = pwr.nackfragcount) ∧
      (∀ nf, m.nackfrag = some nf → nf.count = pwr.nackfragcount) := by
  have hiff := get_AckNack_info_nackfrag_iff cfg orc pwr rwn
    (decide (tnow ≥ rwn.t_last_ack + cfg.ack_delay))
    (decide (tnow ≥ rwn.t_last_nack + cfg.nack_delay)) hwf
  set g := get_AckNack_info cfg orc pwr rwn
    (decide (tnow ≥ rwn.t_last_ack + cfg.ack_delay))
    (decide (tnow ≥ rwn.t_last_nack + cfg.nack_delay)) with hgdef
  simp only [make_and_resched_acknack, ← hgdef]
  clear_value g
  clear hgdef
  intro m hm
  by_cases h1 : g.1 = AckNackResult.aanr_suppressed_ack
  · rw [if_pos h1] at hm
    exact absurd hm (by simp)
  rw [if_neg h1] at hm ⊢
  by_cases h2 : avoid = true ∧ g.1 = AckNackResult.aanr_suppressed_nack
  · rw [if_pos h2] at hm
    exact absurd hm (by simp)
  rw [if_neg h2] at hm ⊢
  by_cases h3 : orc.alloc_ok = false
  · rw [if_pos h3] at hm
    exact absurd hm (by simp)
  rw [if_neg h3] at hm ⊢
  rcases hg1 : g.1 with _ | _ | _ | _ | _
  · -- ACK
    have hnseq : ¬ 0 < g.2.1.nackfrag_seq := fun hp => by
      rcases (hiff.mpr hp).1 with h | h <;> rw [hg1] at h <;> cases h
    simp only [hg1] at hm ⊢
    rw [if_neg hnseq] at hm ⊢
    split_ifs at hm ⊢ <;> simp at hm <;> (try subst hm) <;> simp_all
  · exact absurd hg1 h1
  · -- NACK
    have hA : g.1 = AckNackResult.aanr_nack ∨
        g.1 = AckNackResult.aanr_nackfrag_only := Or.inl hg1
    simp only [hg1] at hm ⊢
    by_cases hseq : 0 < g.2.1.nackfrag_seq
    · have hfe : g.2.2.frag_end_p1 ≠ 0 := (hiff.mpr hseq).2
      rw [if_pos hseq] at hm ⊢
      rw [if_pos hfe] at hm ⊢
      have hmod : (pwr.nackfragcount + 1) % 2 ^ 32 = pwr.nackfragcount + 1 :=
        Nat.mod_eq_of_lt hcnt
      split_ifs at hm ⊢ <;> simp at hm <;> (try subst hm) <;>
        simp_all [add_NackFrag, hseq]
    · have hfe : ¬ g.2.2.frag_end_p1 ≠ 0 := fun hb => hseq (hiff.mp ⟨hA, hb⟩)
      rw [if_neg hseq] at hm ⊢
      rw [if_neg hfe] at hm ⊢
      split_ifs at hm ⊢ <;> simp at hm <;> (try subst hm) <;> simp_all
  · -- NACKFRAG_ONLY
    have hA : g.1 = AckNackResult.aanr_nack ∨
        g.1 = AckNackResult.aanr_nackfrag_only := Or.inr hg1
    simp only [hg1] at hm ⊢
    by_cases hseq : 0 < g.2.1.nackfrag_seq
    · have hfe : g.2.2.frag_end_p1 ≠ 0 := (hiff.mpr hseq).2
      rw [if_pos hseq] at hm ⊢
      rw [if_pos hfe] at hm ⊢
      have hmod : (pwr.nackfragcount + 1) % 2 ^ 32 = pwr.nackfragcount + 1 :=
        Nat.mod_eq_of_lt hcnt
      split_ifs at hm ⊢ <;> simp at hm <;> (try subst hm) <;>
        simp_all [add_NackFrag, hseq]
    · have hfe : ¬ g.2.2.frag_end_p1 ≠ 0 := fun hb => hseq (hiff.mp ⟨hA, hb⟩)
      rw [if_neg hseq] at hm ⊢
      rw [if_neg hfe] at hm ⊢
      split_ifs at hm ⊢ <;> simp at hm <;> (try subst hm) <;> simp_all
  · -- SUPPRESSED_NACK (not avoided)
    have hnseq : ¬ 0 < g.2.1.nackfrag_seq := fun hp => by
      rcases (hiff.mpr hp).1 with h | h <;> rw [hg1] at h <;> cases h
    simp only [hg1] at hm ⊢
    rw [if_neg hnseq] at hm ⊢
    split_ifs at hm ⊢ <;> simp at hm <;> (try subst hm) <;> simp_all

/-- Witness for the amended C4 at the concrete S2 instance. -/
theorem make_pure_ack_commit_witness :
    ((make_and_resched_acknack cfg_base orc_ack pwr_s2 rwn_s2 100 false).msg.bind
        (·.acknack)).map (fun a => (a.readerSNState, a.count)) =
      some (⟨1, 0⟩, rwn_s2.count) ∧
    (make_and_resched_acknack cfg_base orc_ack pwr_s2 rwn_s2 100
        false).rwn.ack_requested = false ∧
    (make_and_resched_acknack cfg_base orc_ack pwr_s2 rwn_s2 100
        false).rwn.t_last_ack = 100 := by
  have h := make_pure_ack_commit cfg_base orc_ack pwr_s2 rwn_s2 100 false
    rfl rfl rfl rfl (by decide) rfl rfl
  exact ⟨h.2.1, h.2.2.2.1, h.2.2.2.2.1⟩

theorem orc_c6_wf : Oracles.wf orc_c6 := by
  refine ⟨fun seq f => ?_, fun b l n => ?_, fun b l n => ?_⟩ <;>
    simp [orc_c6, defrag_unknown, reorder_seq10, reorder_empty, DefragOut.wf,
      NackmapOut.wf, NN_SEQUENCE_NUMBER_SET_MAX_BITS]

theorem orc_c5_wf : Oracles.wf orc_c5 := by
  refine ⟨fun seq f => ?_, fun b l n => ?_, fun b l n => ?_⟩
  · simp only [orc_c5, defrag_frag10, DefragOut.wf]
    split_ifs <;> intro h
    · exact ⟨by norm_num, by norm_num⟩
    · cases h
  · simp [orc_c5, reorder_seq10, NackmapOut.wf,
      NN_SEQUENCE_NUMBER_SET_MAX_BITS]
  · simp [orc_c5, reorder_empty, NackmapOut.wf,
      NN_SEQUENCE_NUMBER_SET_MAX_BITS]

/-- The bitmap builder depends only on the source-selection fields: it is
unchanged by updates to the other match / proxy-writer fields. -/
theorem add_AckNack_makebitmaps_congr (cfg : Config) (orc : Oracles)
    (pwr pwr' : ProxyWriter) (rwn rwn' : PwrRdMatch)
    (h1 : pwr'.last_seq = pwr.last_seq)
    (h2 : pwr'.last_fragnum = pwr.last_fragnum)
    (h3 : pwr'.next_deliv_seq_lowword = pwr.next_deliv_seq_lowword)
    (h4 : rwn'.in_sync = rwn.in_sync) (h5 : rwn'.filtered = rwn.filtered)
    (h6 : rwn'.last_seq = rwn.last_seq) :
    add_AckNack_makebitmaps cfg orc pwr' rwn' =
      add_AckNack_makebitmaps cfg orc pwr rwn := by
  have hgs : add_AckNack_getsource cfg orc pwr' rwn' =
      add_AckNack_getsource cfg orc pwr rwn := by
    simp only [add_AckNack_getsource, h3, h4, h5]
  have hnm : makebitmaps_nm cfg orc pwr' rwn' = makebitmaps_nm cfg orc pwr rwn := by
    simp only [makebitmaps_nm, hgs, h1, h5, h6]
  simp only [add_AckNack_makebitmaps, hnm, h1, h2]

/-- Inversion facts of the classifier: an ACK comes from an empty bitmap, a
NACK-like result carries the summary of the built bitmaps, and a
SUPPRESSED_NACK implies the nack delay has not passed and the region did not
advance. -/
theorem get_AckNack_info_inversion (cfg : Config) (orc : Oracles)
    (pwr : ProxyWriter) (rwn : PwrRdMatch) (ap np : Bool) :
    ((get_AckNack_info cfg orc pwr rwn ap np).1 = AckNackResult.aanr_ack →
      (add_AckNack_makebitmaps cfg orc pwr rwn).2 = false) ∧
    (((get_AckNack_info cfg orc pwr rwn ap np).1 = AckNackResult.aanr_nack ∨
      (get_AckNack_info cfg orc pwr rwn ap np).1 =
        AckNackResult.aanr_nackfrag_only) →
      (add_AckNack_makebitmaps cfg orc pwr rwn).2 = true ∧
      (get_AckNack_info cfg orc pwr rwn ap np).2.2 =
        info_nack_summary (add_AckNack_makebitmaps cfg orc pwr rwn).1) ∧
    ((get_AckNack_info cfg orc pwr rwn ap np).1 =
        AckNackResult.aanr_suppressed_nack →
      (add_AckNack_makebitmaps cfg orc pwr rwn).2 = true ∧ np = false ∧
      ¬ region_advanced rwn (add_AckNack_makebitmaps cfg orc pwr rwn).1 ∧
      (get_AckNack_info cfg orc pwr rwn ap np).2.2 =
        info_nack_summary (add_AckNack_makebitmaps cfg orc pwr rwn).1) := by
  set mb := add_AckNack_makebitmaps cfg orc pwr rwn with hmbdef
  simp only [get_AckNack_info, ← hmbdef]
  clear_value mb
  clear hmbdef
  rcases hmb2 : mb.2 with _ | _
  · simp only [hmb2]
    rw [if_pos trivial, if_pos (Or.inl rfl)]
    split_ifs <;> simp_all
  · try simp only [hmb2]
    by_cases hc1 : region_advanced rwn mb.1
    · simp only [if_pos hc1]
      rw [if_neg (by simp)]
      split_ifs <;> simp_all
    · simp only [if_neg hc1]
      by_cases hc2 : rwn.directed_heartbeat = true ∧
          (rwn.nack_sent_on_nackdelay = false ∨ np = true)
      · simp only [if_pos hc2]
        rw [if_neg (by simp)]
        split_ifs <;> simp_all
      · simp only [if_neg hc2]
        by_cases hc3 : np = true
        · simp only [if_pos hc3]
          rw [if_neg (by simp)]
          split_ifs <;> simp_all
        · simp only [if_neg hc3]
          split_ifs <;> simp_all

/-- When no heartbeat arrived since the last ACK and (with NACK material) no
directed heartbeat is pending, the nack delay has not passed and the region
did not advance, the classifier suppresses the message entirely. -/
theorem get_AckNack_info_suppresses_all (cfg : Config) (orc : Oracles)
    (pwr : ProxyWriter) (rwn : PwrRdMatch) (ap np : Bool)
    (hhb : rwn.heartbeat_since_ack = false)
    (hmat : (add_AckNack_makebitmaps cfg orc pwr rwn).2 = true →
      rwn.directed_heartbeat = false ∧ np = false ∧
      ¬ region_advanced rwn (add_AckNack_makebitmaps cfg orc pwr rwn).1) :
    (get_AckNack_info cfg orc pwr rwn ap np).1 =
      AckNackResult.aanr_suppressed_ack := by
  set mb := add_AckNack_makebitmaps cfg orc pwr rwn with hmbdef
  simp only [get_AckNack_info, ← hmbdef]
  clear_value mb
  clear hmbdef
  rcases hmb2 : mb.2 with _ | _
  · simp only [hmb2]
    rw [if_pos trivial, if_pos (Or.inl rfl)]
    split_ifs <;> simp_all
  · obtain ⟨hdir, hnp, hreg⟩ := hmat hmb2
    try simp only [hmb2]
    rw [if_neg hreg]
    have hc2 : ¬ (rwn.directed_heartbeat = true ∧
        (rwn.nack_sent_on_nackdelay = false ∨ np = true)) := by simp [hdir]
    rw [if_neg hc2]
    have hc3 : ¬ (np = true) := by simp [hnp]
    rw [if_neg hc3]
    split_ifs <;> simp_all

/-- When the classifier suppresses the ACK, the committer returns no message
and changes nothing. -/
theorem make_and_resched_of_suppressed_ack (cfg : Config) (orc : Oracles)
    (pwr : ProxyWriter) (rwn : PwrRdMatch) (tnow : Int) (avoid : Bool)
    (h : (get_AckNack_info cfg orc pwr rwn
        (decide (tnow ≥ rwn.t_last_ack + cfg.ack_delay))
        (decide (tnow ≥ rwn.t_last_nack + cfg.nack_delay))).1 =
      AckNackResult.aanr_suppressed_ack) :
    (make_and_resched_acknack cfg orc pwr rwn tnow avoid).msg = none ∧
    (make_and_resched_acknack cfg orc pwr rwn tnow avoid).aanr =
      AckNackResult.aanr_suppressed_ack := by
  simp only [make_and_resched_acknack]
  rw [if_pos h]
  exact ⟨rfl, h⟩

set_option maxHeartbeats 4000000 in
/-- State facts after a successful emission: the classification is the
classifier's verdict (never SUPPRESSED_ACK), the source-selection fields are
untouched, the heartbeat flags are cleared, and the previous-NACK summary and
`t_last_nack` are updated per outcome. -/
theorem make_and_resched_commit_state (cfg : Config) (orc : Oracles)
    (pwr : ProxyWriter) (rwn : PwrRdMatch) (tnow : Int) (avoid : Bool) :
    (make_and_resched_acknack cfg orc pwr rwn tnow avoid).msg.isSome = true →
      (make_and_resched_acknack cfg orc pwr rwn tnow avoid).aanr =
        (get_AckNack_info cfg orc pwr rwn
          (decide (tnow ≥ rwn.t_last_ack + cfg.ack_delay))
          (decide (tnow ≥ rwn.t_last_nack + cfg.nack_delay))).1 ∧
      (get_AckNack_info cfg orc pwr rwn
          (decide (tnow ≥ rwn.t_last_ack + cfg.ack_delay))
          (decide (tnow ≥ rwn.t_last_nack + cfg.nack_delay))).1 ≠
        AckNackResult.aanr_suppressed_ack ∧
      (make_and_resched_acknack cfg orc pwr rwn tnow avoid).pwr.last_seq =
        pwr.last_seq ∧
      (make_and_resched_acknack cfg orc pwr rwn tnow avoid).pwr.last_fragnum =
        pwr.last_fragnum ∧
      (make_and_resched_acknack cfg orc pwr rwn tnow
          avoid).pwr.next_deliv_seq_lowword = pwr.next_deliv_seq_lowword ∧
      (make_and_resched_acknack cfg orc pwr rwn tnow avoid).rwn.in_sync =
        rwn.in_sync ∧
      (make_and_resched_acknack cfg orc pwr rwn tnow avoid).rwn.filtered =
        rwn.filtered ∧
      (make_and_resched_acknack cfg orc pwr rwn tnow avoid).rwn.last_seq =
        rwn.last_seq ∧
      (make_and_resched_acknack cfg orc pwr rwn tnow
          avoid).rwn.heartbeat_since_ack = false ∧
      (make_and_resched_acknack cfg orc pwr rwn tnow
          avoid).rwn.directed_heartbeat = false ∧
      ((make_and_resched_acknack cfg orc pwr rwn tnow avoid).aanr =
          AckNackResult.aanr_ack →
        (make_and_resched_acknack cfg orc pwr rwn tnow
            avoid).rwn.last_nack.seq_end_p1 = rwn.last_nack.seq_end_p1 ∧
        (make_and_resched_acknack cfg orc pwr rwn tnow
            avoid).rwn.last_nack.frag_end_p1 = rwn.last_nack.frag_end_p1 ∧
        (make_and_resched_acknack cfg orc pwr rwn tnow avoid).rwn.t_last_nack =
          rwn.t_last_nack) ∧
      (((make_and_resched_acknack cfg orc pwr rwn tnow avoid).aanr =
          AckNackResult.aanr_nack ∨
        (make_and_resched_acknack cfg orc pwr rwn tnow avoid).aanr =
          AckNackResult.aanr_nackfrag_only) →
        (make_and_resched_acknack cfg orc pwr rwn tnow avoid).rwn.last_nack =
          (get_AckNack_info cfg orc pwr rwn
            (decide (tnow ≥ rwn.t_last_ack + cfg.ack_delay))
            (decide (tnow ≥ rwn.t_last_nack + cfg.nack_delay))).2.2 ∧
        (make_and_resched_acknack cfg orc pwr rwn tnow avoid).rwn.t_last_nack =
          tnow) ∧
      ((make_and_resched_acknack cfg orc pwr rwn tnow avoid).aanr =
          AckNackResult.aanr_suppressed_nack →
        (make_and_resched_acknack cfg orc pwr rwn tnow
            avoid).rwn.last_nack.seq_end_p1 = rwn.last_nack.seq_end_p1 ∧
        (make_and_resched_acknack cfg orc pwr rwn tnow
            avoid).rwn.last_nack.frag_end_p1 = rwn.last_nack.frag_end_p1 ∧
        (make_and_resched_acknack cfg orc pwr rwn tnow avoid).rwn.t_last_nack =
          rwn.t_last_nack) := by
  set g := get_AckNack_info cfg orc pwr rwn
    (decide (tnow ≥ rwn.t_last_ack + cfg.ack_delay))
    (decide (tnow ≥ rwn.t_last_nack + cfg.nack_delay)) with hgdef
  simp only [make_and_resched_acknack, ← hgdef]
  clear_value g
  clear hgdef
  intro hs
  by_cases h1 : g.1 = AckNackResult.aanr_suppressed_ack
  · rw [if_pos h1] at hs
    simp at hs
  rw [if_neg h1] at hs ⊢
  by_cases h2 : avoid = true ∧ g.1 = AckNackResult.aanr_suppressed_nack
  · rw [if_pos h2] at hs
    simp at hs
  rw [if_neg h2] at hs ⊢
  by_cases h3 : orc.alloc_ok = false
  · rw [if_pos h3] at hs
    simp at hs
  rw [if_neg h3] at hs ⊢
  rcases hg1 : g.1 with _ | _ | _ | _ | _ <;> simp only [hg1] at hs ⊢ <;>
    split_ifs at hs ⊢ <;> simp_all

set_option maxHeartbeats 2000000 in
/-- C6 amended: with a positive nack delay and well-formed oracles, calling
the committer twice in a row with no intervening oracle change and the same
`tnow`, where the first call emitted a message, classifies the second call
SUPPRESSED_ACK and returns no message. -/
theorem make_and_resched_twice (cfg : Config) (orc : Oracles)
    (pwr : ProxyWriter) (rwn : PwrRdMatch) (tnow : Int) (avoid : Bool)
    (hwf : Oracles.wf orc) (hnd : 0 < cfg.nack_delay)
    (hs : (make_and_resched_acknack cfg orc pwr rwn tnow avoid).msg.isSome =
      true) :
    (make_and_resched_acknack cfg orc
        (make_and_resched_acknack cfg orc pwr rwn tnow avoid).pwr
        (make_and_resched_acknack cfg orc pwr rwn tnow avoid).rwn
        tnow avoid).aanr = AckNackResult.aanr_suppressed_ack ∧
    (make_and_resched_acknack cfg orc
        (make_and_resched_acknack cfg orc pwr rwn tnow avoid).pwr
        (make_and_resched_acknack cfg orc pwr rwn tnow avoid).rwn
        tnow avoid).msg = none := by
  obtain ⟨haanr, hnsa, hp1, hp2, hp3, hr1, hr2, hr3, hhb, hdir, hack, hnack,
    hsn⟩ := make_and_resched_commit_state cfg orc pwr rwn tnow avoid hs
  obtain ⟨hinv_ack, hinv_nack, hinv_sn⟩ :=
    get_AckNack_info_inversion cfg orc pwr rwn
      (decide (tnow ≥ rwn.t_last_ack + cfg.ack_delay))
      (decide (tnow ≥ rwn.t_last_nack + cfg.nack_delay))
  have hinv := add_AckNack_makebitmaps_inv cfg orc pwr rwn hwf
  set r1 := make_and_resched_acknack cfg orc pwr rwn tnow avoid with hr1def
  clear_value r1
  have hmbeq : add_AckNack_makebitmaps cfg orc r1.pwr r1.rwn =
      add_AckNack_makebitmaps cfg orc pwr rwn :=
    add_AckNack_makebitmaps_congr cfg orc pwr r1.pwr rwn r1.rwn
      hp1 hp2 hp3 hr1 hr2 hr3
  have hsa2 : (get_AckNack_info cfg orc r1.pwr r1.rwn
      (decide (tnow ≥ r1.rwn.t_last_ack + cfg.ack_delay))
      (decide (tnow ≥ r1.rwn.t_last_nack + cfg.nack_delay))).1 =
      AckNackResult.aanr_suppressed_ack := by
    apply get_AckNack_info_suppresses_all cfg orc r1.pwr r1.rwn _ _ hhb
    intro hmat2
    rw [hmbeq] at hmat2
    rw [hmbeq]
    refine ⟨hdir, ?_, ?_⟩
    · -- nack delay has not passed at the second call
      rcases hg : (get_AckNack_info cfg orc pwr rwn
          (decide (tnow ≥ rwn.t_last_ack + cfg.ack_delay))
          (decide (tnow ≥ rwn.t_last_nack + cfg.nack_delay))).1 with
        _ | _ | _ | _ | _
      · simp [hinv_ack hg] at hmat2
      · exact absurd hg hnsa
      · rw [(hnack (Or.inl (haanr.trans hg))).2]
        exact decide_eq_false (by omega)
      · rw [(hnack (Or.inr (haanr.trans hg))).2]
        exact decide_eq_false (by omega)
      · rw [(hsn (haanr.trans hg)).2.2]
        exact (hinv_sn hg).2.1
    · -- the region did not advance at the second call
      rcases hg : (get_AckNack_info cfg orc pwr rwn
          (decide (tnow ≥ rwn.t_last_ack + cfg.ack_delay))
          (decide (tnow ≥ rwn.t_last_nack + cfg.nack_delay))).1 with
        _ | _ | _ | _ | _
      · simp [hinv_ack hg] at hmat2
      · exact absurd hg hnsa
      · -- NACK: last_nack now equals the summary of the (unchanged) bitmaps
        have hlast := (hnack (Or.inl (haanr.trans hg))).1
        have hns := (hinv_nack (Or.inl hg)).2
        rw [hns] at hlast
        intro hadv
        rcases hadv with h | ⟨he, hge⟩
        · rw [hlast] at h
          simp only [info_nack_summary, info_seq_base, info_seq_end_p1] at h
          omega
        · rw [hlast] at he hge
          simp only [info_nack_summary, info_seq_base, info_seq_end_p1,
            info_frag_base, info_frag_end_p1] at he hge
          have hnb : (add_AckNack_makebitmaps cfg orc pwr
              rwn).1.acknack_set.numbits = 0 := by omega
          rcases hinv.1 hmat2 with hpos | hpos
          · omega
          · obtain ⟨hn, hb⟩ := hinv.2.1 hpos
            rw [if_pos hpos, if_pos hpos, Nat.mod_eq_of_lt hb] at hge
            omega
      · -- NACKFRAG_ONLY: same argument
        have hlast := (hnack (Or.inr (haanr.trans hg))).1
        have hns := (hinv_nack (Or.inr hg)).2
        rw [hns] at hlast
        intro hadv
        rcases hadv with h | ⟨he, hge⟩
        · rw [hlast] at h
          simp only [info_nack_summary, info_seq_base, info_seq_end_p1] at h
          omega
        · rw [hlast] at he hge
          simp only [info_nack_summary, info_seq_base, info_seq_end_p1,
            info_frag_base, info_frag_end_p1] at he hge
          have hnb : (add_AckNack_makebitmaps cfg orc pwr
              rwn).1.acknack_set.numbits = 0 := by omega
          rcases hinv.1 hmat2 with hpos | hpos
          · omega
          · obtain ⟨hn, hb⟩ := hinv.2.1 hpos
            rw [if_pos hpos, if_pos hpos, Nat.mod_eq_of_lt hb] at hge
            omega
      · -- SUPPRESSED_NACK: the relevant summary fields are unchanged
        have hfix := hsn (haanr.trans hg)
        have hreg := (hinv_sn hg).2.2.1
        unfold region_advanced at hreg ⊢
        rw [hfix.1, hfix.2.1]
        exact hreg
  have := make_and_resched_of_suppressed_ack cfg orc r1.pwr r1.rwn tnow avoid
    hsa2
  exact ⟨this.2, this.1⟩

/-- C6 counterexample: with `nack_delay = 0`, the committer emits a message
on the first call AND again on the second call with unchanged oracles and
the same `tnow` — the second call classifies NACK, not SUPPRESSED_ACK. -/
theorem make_and_resched_twice_counterexample :
    (make_and_resched_acknack cfg_zero orc_c6 pwr_c6 rwn_c6 100
        false).msg.isSome = true ∧
    (make_and_resched_acknack cfg_zero orc_c6
        (make_and_resched_acknack cfg_zero orc_c6 pwr_c6 rwn_c6 100
          false).pwr
        (make_and_resched_acknack cfg_zero orc_c6 pwr_c6 rwn_c6 100
          false).rwn 100 false).aanr = AckNackResult.aanr_nack ∧
    (make_and_resched_acknack cfg_zero orc_c6
        (make_and_resched_acknack cfg_zero orc_c6 pwr_c6 rwn_c6 100
          false).pwr
        (make_and_resched_acknack cfg_zero orc_c6 pwr_c6 rwn_c6 100
          false).rwn 100 false).msg.isSome = true := by
  refine ⟨by decide, by decide, by decide⟩

/-- Witness for the amended C6 at a concrete instance with
`nack_delay = 10 > 0`. -/
theorem make_and_resched_twice_witness :
    Oracles.wf orc_c6 ∧ (0 : Int) < cfg_base.nack_delay ∧
    ((make_and_resched_acknack cfg_base orc_c6
        (make_and_resched_acknack cfg_base orc_c6 pwr_c6 rwn_c6 100
          false).pwr
        (make_and_resched_acknack cfg_base orc_c6 pwr_c6 rwn_c6 100
          false).rwn 100 false).aanr = AckNackResult.aanr_suppressed_ack ∧
     (make_and_resched_acknack cfg_base orc_c6
        (make_and_resched_acknack cfg_base orc_c6 pwr_c6 rwn_c6 100
          false).pwr
        (make_and_resched_acknack cfg_base orc_c6 pwr_c6 rwn_c6 100
          false).rwn 100 false).msg = none) :=
  ⟨orc_c6_wf, by decide,
    make_and_resched_twice cfg_base orc_c6 pwr_c6 rwn_c6 100 false
      orc_c6_wf (by decide) (by decide)⟩

/-- Witness for C7 at the concrete C5 scenario, where a NackFrag for sample
10 is emitted and the proxy writer's `nackfragcount` steps from 7 to 8. -/
theorem nackfragcount_per_nackfrag_witness :
    (make_and_resched_acknack cfg_base orc_c5 pwr_c5 rwn_c5 100
        false).pwr.nackfragcount = pwr_c5.nackfragcount + 1 := by
  have hnf : ((make_and_resched_acknack cfg_base orc_c5 pwr_c5 rwn_c5 100
      false).msg.bind (fun x => x.nackfrag)).isSome = true := by decide
  have hsome : (make_and_resched_acknack cfg_base orc_c5 pwr_c5 rwn_c5 100
      false).msg.isSome = true := by decide
  obtain ⟨m, hm⟩ := Option.isSome_iff_exists.mp hsome
  have h := nackfragcount_per_nackfrag cfg_base orc_c5 pwr_c5 rwn_c5 100
    false orc_c5_wf (by decide) m hm
  rw [hm] at hnf
  exact h.2.1 (by simpa using hnf)

end DdsiAcknack
